import Mathlib

/-!
Verification development for the trading-signals bot core:
the SignalAggregator (app/strategies/aggregator.py), the strategy batch
runner (app/strategies/strategies.py, aggregator.py) and the Backtester
(app/services/backtester.py).  Python floats are embedded as exact
rationals; the two indicator values computed by the external `ta`
library (ADX, ATR) enter as explicit parameters, with the length guard
that the repository's own code places in front of the ADX computation
modelled faithfully.
-/

namespace TradingBot

/-- Trade / vote direction, `Literal["LONG", "SHORT", "NEUTRAL"]` in the
source. -/
inductive Direction where
  | LONG
  | SHORT
  | NEUTRAL
deriving DecidableEq, Repr

/-- `StrategyResult` dataclass (strategies.py).  The `indicators` dict is
omitted: no claim mentions it. -/
structure StrategyResult where
  direction : Direction
  confidence : ℚ
  weight : ℚ := 1
  name : String := ""
deriving DecidableEq, Repr

/-- `BaseStrategy.run` (strategies.py lines 55-63): the raw result of
`get_confidence` gets the class name stamped on and its confidence
clamped to `[5, 95]`. -/
def baseStrategyRun (className : String) (raw : StrategyResult) : StrategyResult :=
  { raw with
    name := className
    confidence := max 5 (min 95 raw.confidence) }

/-- The substitute result built in `SignalAggregator.run_all_strategies`
when a strategy raises (aggregator.py lines 188-196). -/
def errorResult (className : String) : StrategyResult :=
  { direction := .NEUTRAL, confidence := 0, weight := 0, name := className }

/-- `SignalAggregator.run_all_strategies` (aggregator.py lines 180-197).
A strategy class is embedded as its class name together with the outcome
of constructing and running it: `some raw` is the `StrategyResult`
returned by `get_confidence` (before `BaseStrategy.run` post-processing),
`none` records that an exception was raised anywhere inside `run`. -/
def runAllStrategies (strategies : List (String × Option StrategyResult)) :
    List StrategyResult :=
  strategies.map fun p =>
    match p.2 with
    | some raw => baseStrategyRun p.1 raw
    | none => errorResult p.1

/-! ### Aggregator constants (aggregator.py lines 17-41, 267-274) -/

def MIN_VOTE_CONFIDENCE_DEFAULT : ℚ := 30
def MIN_VOTE_RATIO_DEFAULT : ℚ := 0.66
def ADX_TREND_THRESHOLD : ℚ := 25
def ADX_RANGE_THRESHOLD : ℚ := 20
def TREND_STRATEGY_NAMES : List String :=
  ["TrendFollowStrategy", "MACDCrossoverStrategy", "SMACrossoverStrategy",
   "WilliamsFractalsStrategy"]
def RANGE_STRATEGY_NAMES : List String :=
  ["BollingerBandSqueezeStrategy", "StochasticOscillatorStrategy"]
def TREND_BOOST : ℚ := 1.15
def TREND_DAMPEN : ℚ := 0.6
def RANGE_BOOST : ℚ := 1.1
def RANGE_DAMPEN : ℚ := 0.5
def MIN_ACTUAL_WEIGHT : ℚ := 0.1
def MAX_ACTUAL_WEIGHT : ℚ := 3
def MIN_AVG_CONFIDENCE : ℚ := 35
def VOTE_BONUS : ℚ := 5

/-- `SignalAggregator._get_adx` (aggregator.py lines 138-152): for a
candle window shorter than the 14-period lookback the ADX is 0; else it
is the value computed by the `ta` library, passed in abstractly as
`computed`. -/
def getAdx (dataLen : ℕ) (computed : ℚ) : ℚ :=
  if dataLen < 14 then 0 else computed

/-- `SignalAggregator._get_regime_multiplier` (aggregator.py
lines 154-170). -/
def regimeMultiplier (adx : ℚ) (strategyName : String) : ℚ :=
  if ADX_TREND_THRESHOLD ≤ adx then
    if strategyName ∈ TREND_STRATEGY_NAMES then TREND_BOOST
    else if strategyName ∈ RANGE_STRATEGY_NAMES then TREND_DAMPEN
    else 1
  else if adx ≤ ADX_RANGE_THRESHOLD then
    if strategyName ∈ RANGE_STRATEGY_NAMES then RANGE_BOOST
    else if strategyName ∈ TREND_STRATEGY_NAMES then RANGE_DAMPEN
    else 1
  else 1

/-- Constructor parameters of `SignalAggregator` that `aggregate` reads.
The three per-name tables model `dict.get(name, 1.0)` lookups
(aggregator.py lines 226-229), so they are total functions defaulting
to 1. -/
structure AggConfig where
  threshold : ℚ := 60
  stopMultiplier : ℚ := 1.5
  tpMultipliers : List ℚ := [1.5, 3, 4.5]
  minVoteConfidence : ℚ := MIN_VOTE_CONFIDENCE_DEFAULT
  minVoteShare : ℚ := MIN_VOTE_RATIO_DEFAULT
  perfWeight : String → ℚ := fun _ => 1
  stabilityWeight : String → ℚ := fun _ => 1
  corrPenalty : String → ℚ := fun _ => 1

/-- `actual_weight` of one strategy result (aggregator.py lines
226-237): product of the five factors, clamped to `[0.1, 3.0]`. -/
def actualWeight (cfg : AggConfig) (adx : ℚ) (r : StrategyResult) : ℚ :=
  max MIN_ACTUAL_WEIGHT (min MAX_ACTUAL_WEIGHT
    (r.weight * cfg.perfWeight r.name * regimeMultiplier adx r.name *
      cfg.stabilityWeight r.name * cfg.corrPenalty r.name))

/-- Qualifying vote predicate for a direction: the result votes `d` with
confidence at or above the vote-confidence floor (aggregator.py
lines 238-251). -/
def isVote (cfg : AggConfig) (d : Direction) (r : StrategyResult) : Prop :=
  r.direction = d ∧ cfg.minVoteConfidence ≤ r.confidence

instance (cfg : AggConfig) (d : Direction) (r : StrategyResult) :
    Decidable (isVote cfg d r) := by
  unfold isVote; infer_instance

/-- Number of qualifying votes for direction `d` (the `long_votes` /
`short_votes` counters of the aggregation loop). -/
def voteCount (cfg : AggConfig) (d : Direction) (results : List StrategyResult) : ℕ :=
  (results.filter (fun r => decide (isVote cfg d r))).length

/-- `long_confidence_sum` / `short_confidence_sum`: weighted confidence
sum over the qualifying votes for `d`. -/
def confSum (cfg : AggConfig) (adx : ℚ) (d : Direction)
    (results : List StrategyResult) : ℚ :=
  ((results.filter (fun r => decide (isVote cfg d r))).map
    (fun r => r.confidence * actualWeight cfg adx r)).sum

/-- `long_weight_sum` / `short_weight_sum`: weight sum over the
qualifying votes for `d`. -/
def weightSum (cfg : AggConfig) (adx : ℚ) (d : Direction)
    (results : List StrategyResult) : ℚ :=
  ((results.filter (fun r => decide (isVote cfg d r))).map
    (fun r => actualWeight cfg adx r)).sum

/-- `neutral_votes` counter of the aggregation loop. -/
def neutralCount (results : List StrategyResult) : ℕ :=
  (results.filter (fun r => decide (r.direction = Direction.NEUTRAL))).length

/-- `filtered_votes` counter: directional votes whose confidence is below
the floor. -/
def filteredCount (cfg : AggConfig) (results : List StrategyResult) : ℕ :=
  (results.filter (fun r => decide (r.direction ≠ Direction.NEUTRAL ∧
    r.confidence < cfg.minVoteConfidence))).length

/-- `avg_long_confidence` / `avg_short_confidence` (aggregator.py
lines 256-257). -/
def avgConfidence (cfg : AggConfig) (adx : ℚ) (d : Direction)
    (results : List StrategyResult) : ℚ :=
  if 0 < weightSum cfg adx d results then
    confSum cfg adx d results / weightSum cfg adx d results
  else 0

/-- `min_votes = max(1, ceil(total_strategies * min_vote_ratio))`
(aggregator.py line 267). -/
def minVotes (cfg : AggConfig) (total : ℕ) : ℕ :=
  max 1 (Int.toNat ⌈(total : ℚ) * cfg.minVoteShare⌉)

/-- Vote bonus for direction `d`: `max(0, votes - min_votes) * VOTE_BONUS`
(aggregator.py lines 276-277; natural subtraction is the `max 0`). -/
def voteBonus (cfg : AggConfig) (d : Direction) (results : List StrategyResult) : ℚ :=
  ((voteCount cfg d results - minVotes cfg results.length : ℕ) : ℚ) * VOTE_BONUS

/-- Consensus confidence for direction `d` (aggregator.py lines
281-289): the average plus the capped vote bonus when the direction has
enough votes and the average clears `MIN_AVG_CONFIDENCE`, else the bare
average. -/
def consensus (cfg : AggConfig) (adx : ℚ) (d : Direction)
    (results : List StrategyResult) : ℚ :=
  let avg := avgConfidence cfg adx d results
  if minVotes cfg results.length ≤ voteCount cfg d results ∧
      MIN_AVG_CONFIDENCE ≤ avg then
    min 95 (avg + voteBonus cfg d results)
  else avg

/-- `AggregatedSignal` dataclass (aggregator.py lines 44-64), minus the
`strategy_results` back-pointer which no claim mentions. -/
structure AggregatedSignal where
  direction : Direction
  confidence : ℚ
  entryPrice : ℚ
  stopLoss : Option ℚ := none
  takeProfit1 : Option ℚ := none
  takeProfit2 : Option ℚ := none
  takeProfit3 : Option ℚ := none
  longVotes : ℕ := 0
  shortVotes : ℕ := 0
  neutralVotes : ℕ := 0
  filteredVotes : ℕ := 0
  longWeightSum : ℚ := 0
  shortWeightSum : ℚ := 0
  weightedLongConfidence : ℚ := 0
  weightedShortConfidence : ℚ := 0
deriving Repr

/-- `SignalAggregator._calculate_sl_tp` (aggregator.py lines 331-352):
unconditionally derives SL and the TPs from the ATR value `atr` that the
`ta` library computes over the data window (there is no window-length
guard in this method). -/
def calculateSlTp (cfg : AggConfig) (atr : ℚ) (signal : AggregatedSignal) :
    AggregatedSignal :=
  if signal.direction = .LONG then
    { signal with
      stopLoss := some (signal.entryPrice - cfg.stopMultiplier * atr)
      takeProfit1 := (cfg.tpMultipliers.get? 0).map
        (fun m => signal.entryPrice + m * atr)
      takeProfit2 := (cfg.tpMultipliers.get? 1).map
        (fun m => signal.entryPrice + m * atr)
      takeProfit3 := (cfg.tpMultipliers.get? 2).map
        (fun m => signal.entryPrice + m * atr) }
  else if signal.direction = .SHORT then
    { signal with
      stopLoss := some (signal.entryPrice + cfg.stopMultiplier * atr)
      takeProfit1 := (cfg.tpMultipliers.get? 0).map
        (fun m => signal.entryPrice - m * atr)
      takeProfit2 := (cfg.tpMultipliers.get? 1).map
        (fun m => signal.entryPrice - m * atr)
      takeProfit3 := (cfg.tpMultipliers.get? 2).map
        (fun m => signal.entryPrice - m * atr) }
  else signal

/-- `SignalAggregator.aggregate` (aggregator.py lines 199-329).  `adx`
and `atr` stand for the two `ta`-library indicator values over the
aggregator's candle window (`_get_adx` result and the ATR used by
`_calculate_sl_tp`); `entryPrice` is the last candle's close. -/
def aggregate (cfg : AggConfig) (adx entryPrice atr : ℚ)
    (results : List StrategyResult) : AggregatedSignal :=
  let longVotes := voteCount cfg .LONG results
  let shortVotes := voteCount cfg .SHORT results
  let mv := minVotes cfg results.length
  let consensusLong := consensus cfg adx .LONG results
  let consensusShort := consensus cfg adx .SHORT results
  let dirConf : Direction × ℚ :=
    if mv ≤ longVotes ∧ cfg.threshold ≤ consensusLong ∧ shortVotes < longVotes then
      (.LONG, consensusLong)
    else if mv ≤ shortVotes ∧ cfg.threshold ≤ consensusShort ∧ longVotes < shortVotes then
      (.SHORT, consensusShort)
    else
      (.NEUTRAL, max consensusLong consensusShort)
  let signal : AggregatedSignal :=
    { direction := dirConf.1
      confidence := dirConf.2
      entryPrice := entryPrice
      longVotes := longVotes
      shortVotes := shortVotes
      neutralVotes := neutralCount results
      filteredVotes := filteredCount cfg results
      longWeightSum := weightSum cfg adx .LONG results
      shortWeightSum := weightSum cfg adx .SHORT results
      weightedLongConfidence := avgConfidence cfg adx .LONG results
      weightedShortConfidence := avgConfidence cfg adx .SHORT results }
  if signal.direction ≠ .NEUTRAL then calculateSlTp cfg atr signal else signal

/-! ## Backtester (app/services/backtester.py) -/

/-- Partial close percentages (backtester.py lines 43-45). -/
def TP1_PERCENT : ℚ := 0.40
def TP2_PERCENT : ℚ := 0.30
def TP3_PERCENT : ℚ := 0.30

/-- One OHLCV kline row in Binance order (`KLINE_COLUMNS`,
backtester.py lines 271-275).  Times are in milliseconds. -/
structure Candle where
  openTime : ℤ
  openPrice : ℚ
  high : ℚ
  low : ℚ
  close : ℚ
  volume : ℚ
  closeTime : ℤ
  quoteVolume : ℚ
  trades : ℤ
  takerBase : ℚ
  takerQuote : ℚ
  ignoreField : ℚ
deriving DecidableEq, Repr

instance : Inhabited Candle :=
  ⟨⟨0, 0, 0, 0, 0, 0, 0, 0, 0, 0, 0, 0⟩⟩

/-- The trailing-stop tier, `Literal["ORIGINAL", "BREAKEVEN", "TP1"]`. -/
inductive SlTier where
  | ORIGINAL
  | BREAKEVEN
  | TP1
deriving DecidableEq, Repr

/-- Terminal result kind of a simulated trade. -/
inductive TRKind where
  | SL
  | TP1
  | TP2
  | TP3
  | PARTIAL
  | TIMEOUT
deriving DecidableEq, Repr

/-- `TradeResult` dataclass (backtester.py lines 48-75).  `exitTime` is
the exiting candle's close time in milliseconds. -/
structure TradeResult where
  direction : Direction
  confidence : ℚ
  entryPrice : ℚ
  stopLoss : ℚ
  takeProfit1 : ℚ
  takeProfit2 : ℚ
  takeProfit3 : ℚ
  result : TRKind := .TIMEOUT
  exitTime : Option ℤ := none
  exitPrice : Option ℚ := none
  tp1Hit : Bool := false
  tp2Hit : Bool := false
  tp3Hit : Bool := false
  slHit : Bool := false
  slHitAt : Option SlTier := none
  totalProfitPercent : ℚ := 0
deriving DecidableEq, Repr

/-- `TradeResult.calculate_profit` (backtester.py lines 77-156): banked
take-profit tranches plus the stop exit of the remaining position, every
tranche measured against the entry price. -/
def calculateProfit (t : TradeResult) : ℚ :=
  if t.direction = .LONG then
    (if t.tp1Hit then ((t.takeProfit1 - t.entryPrice) / t.entryPrice) * 100 * TP1_PERCENT else 0) +
    (if t.tp2Hit then ((t.takeProfit2 - t.entryPrice) / t.entryPrice) * 100 * TP2_PERCENT else 0) +
    (if t.tp3Hit then ((t.takeProfit3 - t.entryPrice) / t.entryPrice) * 100 * TP3_PERCENT else 0) +
    (if t.slHit then
      let remaining : ℚ := 1 - (if t.tp1Hit then TP1_PERCENT else 0) -
        (if t.tp2Hit then TP2_PERCENT else 0) - (if t.tp3Hit then TP3_PERCENT else 0)
      if 0 < remaining then
        if t.slHitAt = some .ORIGINAL then
          ((t.stopLoss - t.entryPrice) / t.entryPrice) * 100 * remaining
        else if t.slHitAt = some .BREAKEVEN then 0
        else if t.slHitAt = some .TP1 then
          ((t.takeProfit1 - t.entryPrice) / t.entryPrice) * 100 * remaining
        else 0
      else 0
    else 0)
  else
    (if t.tp1Hit then ((t.entryPrice - t.takeProfit1) / t.entryPrice) * 100 * TP1_PERCENT else 0) +
    (if t.tp2Hit then ((t.entryPrice - t.takeProfit2) / t.entryPrice) * 100 * TP2_PERCENT else 0) +
    (if t.tp3Hit then ((t.entryPrice - t.takeProfit3) / t.entryPrice) * 100 * TP3_PERCENT else 0) +
    (if t.slHit then
      let remaining : ℚ := 1 - (if t.tp1Hit then TP1_PERCENT else 0) -
        (if t.tp2Hit then TP2_PERCENT else 0) - (if t.tp3Hit then TP3_PERCENT else 0)
      if 0 < remaining then
        if t.slHitAt = some .ORIGINAL then
          ((t.entryPrice - t.stopLoss) / t.entryPrice) * 100 * remaining
        else if t.slHitAt = some .BREAKEVEN then 0
        else if t.slHitAt = some .TP1 then
          ((t.entryPrice - t.takeProfit1) / t.entryPrice) * 100 * remaining
        else 0
      else 0
    else 0)

/-- Entry parameters of one simulated trade, extracted from the signal
in `simulate_trade` (backtester.py lines 815-824); `or 0` on the
optional levels is `Option.getD 0`. -/
structure TradeSpec where
  direction : Direction
  confidence : ℚ
  entryPrice : ℚ
  stopLoss : ℚ
  tp1 : ℚ
  tp2 : ℚ
  tp3 : ℚ
deriving DecidableEq, Repr

/-- Mutable loop state of `simulate_trade`'s candle walk (backtester.py
lines 836-899): the `TradeResult` fields it touches, plus `current_sl`
and `current_sl_type`.  `idx` counts the processed candles (standing in
for candle time, which is strictly increasing); `exitIdx` is the index
of the exiting candle and `relocIdx` the index of the last candle that
relocated the stop — these mirror the recorded exit time. -/
structure SimState where
  tp1Hit : Bool := false
  tp2Hit : Bool := false
  tp3Hit : Bool := false
  slHit : Bool := false
  slHitAt : Option SlTier := none
  result : TRKind := .TIMEOUT
  exitTime : Option ℤ := none
  exitPrice : Option ℚ := none
  currentSl : ℚ
  slType : SlTier := .ORIGINAL
  idx : ℕ := 0
  exitIdx : Option ℕ := none
  relocIdx : Option ℕ := none
deriving DecidableEq, Repr

/-- Initial loop state (backtester.py lines 836-838). -/
def initState (spec : TradeSpec) : SimState :=
  { currentSl := spec.stopLoss }

/-- The stop-breach exit applied to the state entering a candle
(backtester.py lines 847-853 resp. 875-881): the recorded tier and exit
price are the ENTERING state's stop tier and stop level. -/
def slExit (s : SimState) (c : Candle) : SimState :=
  { s with slHit := true, slHitAt := some s.slType, exitTime := some c.closeTime,
           exitPrice := some s.currentSl,
           result := if s.tp1Hit then .PARTIAL else .SL,
           exitIdx := some s.idx, idx := s.idx + 1 }

/-- The TP1 check of the LONG branch (backtester.py lines 856-859):
relocates the stop to the entry price (breakeven).  `n` is the index of
the candle being processed. -/
def applyTp1L (spec : TradeSpec) (c : Candle) (n : ℕ) (s : SimState) : SimState :=
  if s.tp1Hit = false ∧ spec.tp1 ≤ c.high then
    { s with tp1Hit := true, currentSl := spec.entryPrice, slType := .BREAKEVEN,
             relocIdx := some n }
  else s

/-- The TP2 check of the LONG branch (backtester.py lines 861-864):
relocates the stop to the TP1 price. -/
def applyTp2L (spec : TradeSpec) (c : Candle) (n : ℕ) (s : SimState) : SimState :=
  if s.tp1Hit = true ∧ s.tp2Hit = false ∧ spec.tp2 ≤ c.high then
    { s with tp2Hit := true, currentSl := spec.tp1, slType := .TP1,
             relocIdx := some n }
  else s

/-- The TP3 check of the LONG branch (backtester.py lines 866-871):
full close, terminal TP3. -/
def applyTp3L (spec : TradeSpec) (c : Candle) (n : ℕ) (s : SimState) : SimState :=
  if s.tp2Hit = true ∧ s.tp3Hit = false ∧ spec.tp3 ≤ c.high then
    { s with tp3Hit := true, exitTime := some c.closeTime,
             exitPrice := some spec.tp3, result := .TP3, exitIdx := some n }
  else s

/-- One candle of the LONG branch of `simulate_trade`'s loop
(backtester.py lines 845-871): the stop is checked first against the
state entering the candle, then TP1, TP2, TP3 in order; a `break` is
modelled by freezing the state once `result` leaves `TIMEOUT`. -/
def stepLong (spec : TradeSpec) (s : SimState) (c : Candle) : SimState :=
  if s.result ≠ .TIMEOUT then s
  else if c.low ≤ s.currentSl then slExit s c
  else { applyTp3L spec c s.idx (applyTp2L spec c s.idx (applyTp1L spec c s.idx s)) with
         idx := s.idx + 1 }

/-- TP1 check of the SHORT branch (backtester.py lines 884-887). -/
def applyTp1S (spec : TradeSpec) (c : Candle) (n : ℕ) (s : SimState) : SimState :=
  if s.tp1Hit = false ∧ c.low ≤ spec.tp1 then
    { s with tp1Hit := true, currentSl := spec.entryPrice, slType := .BREAKEVEN,
             relocIdx := some n }
  else s

/-- TP2 check of the SHORT branch (backtester.py lines 889-892). -/
def applyTp2S (spec : TradeSpec) (c : Candle) (n : ℕ) (s : SimState) : SimState :=
  if s.tp1Hit = true ∧ s.tp2Hit = false ∧ c.low ≤ spec.tp2 then
    { s with tp2Hit := true, currentSl := spec.tp1, slType := .TP1,
             relocIdx := some n }
  else s

/-- TP3 check of the SHORT branch (backtester.py lines 894-899). -/
def applyTp3S (spec : TradeSpec) (c : Candle) (n : ℕ) (s : SimState) : SimState :=
  if s.tp2Hit = true ∧ s.tp3Hit = false ∧ c.low ≤ spec.tp3 then
    { s with tp3Hit := true, exitTime := some c.closeTime,
             exitPrice := some spec.tp3, result := .TP3, exitIdx := some n }
  else s

/-- One candle of the SHORT (`else`) branch of `simulate_trade`'s loop
(backtester.py lines 873-899). -/
def stepShort (spec : TradeSpec) (s : SimState) (c : Candle) : SimState :=
  if s.result ≠ .TIMEOUT then s
  else if s.currentSl ≤ c.high then slExit s c
  else { applyTp3S spec c s.idx (applyTp2S spec c s.idx (applyTp1S spec c s.idx s)) with
         idx := s.idx + 1 }

/-- Dispatch on `signal.direction == "LONG"` versus the `else` branch
(which the source labels SHORT). -/
def stepTrade (spec : TradeSpec) (s : SimState) (c : Candle) : SimState :=
  if spec.direction = .LONG then stepLong spec s c else stepShort spec s c

/-- The candles `simulate_trade` actually walks (backtester.py lines
827-830): execution candles strictly after the signal time, capped at
`maxCandles`. -/
def futureCandles (signalTime : ℤ) (maxCandles : ℕ)
    (executionCandles : List Candle) : List Candle :=
  (executionCandles.filter (fun c => decide (signalTime < c.openTime))).take maxCandles

/-- Builds the `TradeResult` from the walk's final state. -/
def tradeOfState (spec : TradeSpec) (s : SimState) : TradeResult :=
  { direction := spec.direction, confidence := spec.confidence,
    entryPrice := spec.entryPrice, stopLoss := spec.stopLoss,
    takeProfit1 := spec.tp1, takeProfit2 := spec.tp2, takeProfit3 := spec.tp3,
    result := s.result, exitTime := s.exitTime, exitPrice := s.exitPrice,
    tp1Hit := s.tp1Hit, tp2Hit := s.tp2Hit, tp3Hit := s.tp3Hit,
    slHit := s.slHit, slHitAt := s.slHitAt }

/-- The body of `Backtester.simulate_trade` after the future-candle
slice (backtester.py lines 832-936): walk the future candles, then
post-process exactly as the source does — an unfinished walk becomes
PARTIAL at the last close when TP1 was banked, or TIMEOUT with profit
computed directly from the last close (bypassing `calculate_profit`);
every other outcome goes through `calculate_profit`. -/
def simulateTradeAux (spec : TradeSpec) (future : List Candle) : TradeResult :=
  if hne : future = [] then tradeOfState spec (initState spec)
  else
    let s := future.foldl (stepTrade spec) (initState spec)
    let base := tradeOfState spec s
    let lastCandle := future.getLast hne
    if s.result = .TIMEOUT then
      if s.tp1Hit then
        let t : TradeResult :=
          { base with
            result := .PARTIAL
            exitTime := some lastCandle.closeTime
            exitPrice := some lastCandle.close }
        { t with totalProfitPercent := calculateProfit t }
      else if s.slHit = false ∧ s.tp1Hit = false then
        { base with
          exitTime := some lastCandle.closeTime
          exitPrice := some lastCandle.close
          totalProfitPercent :=
            if spec.direction = .LONG then
              ((lastCandle.close - spec.entryPrice) / spec.entryPrice) * 100
            else
              ((spec.entryPrice - lastCandle.close) / spec.entryPrice) * 100 }
      else { base with totalProfitPercent := calculateProfit base }
    else { base with totalProfitPercent := calculateProfit base }

/-- `Backtester.simulate_trade` (backtester.py lines 797-936): extract
the trade spec from the signal (`or 0` on the optional levels), walk the
future candles, post-process. -/
def simulateTrade (signal : AggregatedSignal) (signalTime : ℤ)
    (executionCandles : List Candle) (maxCandles : ℕ) : TradeResult :=
  simulateTradeAux
    { direction := signal.direction, confidence := signal.confidence,
      entryPrice := signal.entryPrice,
      stopLoss := signal.stopLoss.getD 0,
      tp1 := signal.takeProfit1.getD 0,
      tp2 := signal.takeProfit2.getD 0,
      tp3 := signal.takeProfit3.getD 0 }
    (futureCandles signalTime maxCandles executionCandles)

/-- Ghost-index invariant of the LONG candle walk: before any exit the
stop tier can be non-original only if a strictly earlier candle
relocated the stop; after a stop exit, the recorded exit index is the
exiting candle's, and a non-original exit tier has a relocation index
strictly before it. -/
def RelocInv (s : SimState) : Prop :=
  (s.result = .TIMEOUT → s.slHit = false ∧ s.exitIdx = none ∧
    (s.slType ≠ .ORIGINAL → ∃ i, s.relocIdx = some i ∧ i < s.idx)) ∧
  (s.slHit = true → ∃ j, s.exitIdx = some j ∧ j < s.idx ∧
    ∀ t, s.slHitAt = some t → t ≠ .ORIGINAL →
      ∃ i, s.relocIdx = some i ∧ i < j)

/-! ### Candle aggregation (backtester.py lines 561-600) -/

/-- `TIMEFRAME_MINUTES` table (backtester.py lines 255-268). -/
def TIMEFRAME_MINUTES : List (String × ℕ) :=
  [("1m", 1), ("3m", 3), ("5m", 5), ("15m", 15), ("30m", 30), ("1h", 60),
   ("2h", 120), ("4h", 240), ("6h", 360), ("8h", 480), ("12h", 720), ("1d", 1440)]

/-- Merge one complete group of source candles into a target candle
(backtester.py lines 585-598): open time and open from the first,
close/close time/ignore from the last, high = max, low = min, the
volume-like columns summed. -/
def mergeChunk (c : Candle) (cs : List Candle) : Candle :=
  { openTime := c.openTime
    openPrice := c.openPrice
    high := cs.foldl (fun m x => max m x.high) c.high
    low := cs.foldl (fun m x => min m x.low) c.low
    close := (cs.getLastD c).close
    volume := c.volume + (cs.map Candle.volume).sum
    closeTime := (cs.getLastD c).closeTime
    quoteVolume := c.quoteVolume + (cs.map Candle.quoteVolume).sum
    trades := c.trades + (cs.map Candle.trades).sum
    takerBase := c.takerBase + (cs.map Candle.takerBase).sum
    takerQuote := c.takerQuote + (cs.map Candle.takerQuote).sum
    ignoreField := (cs.getLastD c).ignoreField }

/-- Total wrapper over `mergeChunk`; the empty case is unreachable for a
positive group size. -/
def mergeChunkL (chunk : List Candle) : Candle :=
  match chunk with
  | [] => default
  | c :: cs => mergeChunk c cs

/-- `Backtester.aggregate_candles` (backtester.py lines 561-600) over
the two timeframes' minute counts; the source iterates
`for i in range(0, len, ratio)` and skips incomplete chunks, which is
exactly the complete groups `i = 0, ..., len/ratio - 1`. -/
def aggregateCandles (sourceMinutes targetMinutes : ℕ)
    (candles : List Candle) : List Candle :=
  if candles = [] then []
  else
    let r := targetMinutes / sourceMinutes
    if r ≤ 1 then candles
    else (List.range (candles.length / r)).map
      (fun i => mergeChunkL ((candles.drop (i * r)).take r))

/-! ### Performance weight (backtester.py lines 712-725) -/

/-- Python's `round(x, 4)`. -/
def roundTo4 (x : ℚ) : ℚ := ((round (x * 10000) : ℤ) : ℚ) / 10000

/-- The raw profit-factor/win-rate score of
`Backtester._calculate_performance_weight` (backtester.py line 719).
`sqrtVal` stands for the square root `(win_rate / 55.0) ** 0.5` the
interpreter computes; theorems tie it down through the hypotheses
`0 ≤ sqrtVal` and `sqrtVal * sqrtVal = winRate / 55`. -/
def rawScore (pf winRate sqrtVal : ℚ) : ℚ :=
  if 0 < pf ∧ 0 < winRate then (pf / 1.1) * sqrtVal else 0.3

/-- The raw score clamped to `[0.3, 2.5]` (backtester.py line 720). -/
def clampedScore (pf winRate sqrtVal : ℚ) : ℚ :=
  max 0.3 (min 2.5 (rawScore pf winRate sqrtVal))

/-- Sample-size shrink factor `alpha` (backtester.py line 723). -/
def shrinkAlpha (totalSignals : ℕ) : ℚ :=
  if 0 < totalSignals then min 1 ((totalSignals : ℚ) / 30) else 0

/-- `Backtester._calculate_performance_weight` (backtester.py lines
712-725). -/
def calculatePerformanceWeight (pf winRate sqrtVal : ℚ) (totalSignals : ℕ) : ℚ :=
  roundTo4 (1 + shrinkAlpha totalSignals * (clampedScore pf winRate sqrtVal - 1))

/-! ### Concrete inputs used by witnesses and counterexamples -/

/-- Default aggregator configuration (all per-name weights 1). -/
def aggCfgDemo : AggConfig := {}

/-- Three results: two qualifying LONG votes at confidence 60 and one
qualifying SHORT vote at confidence 90. -/
def aggResultsSplit : List StrategyResult :=
  [{ direction := .LONG, confidence := 60, weight := 1, name := "A" },
   { direction := .LONG, confidence := 60, weight := 1, name := "B" },
   { direction := .SHORT, confidence := 90, weight := 1, name := "C" }]

/-- Three all-NEUTRAL results. -/
def aggResultsNeutral : List StrategyResult :=
  [{ direction := .NEUTRAL, confidence := 50, weight := 1, name := "A" },
   { direction := .NEUTRAL, confidence := 50, weight := 1, name := "B" },
   { direction := .NEUTRAL, confidence := 50, weight := 1, name := "C" }]

/-- A strategy batch with one successful and one raising strategy. -/
def stratBatchDemo : List (String × Option StrategyResult) :=
  [("GoodStrategy", some { direction := .LONG, confidence := 150, weight := 1.2 }),
   ("BadStrategy", none)]

/-- A LONG signal carrying explicit SL/TP levels, as handed to
`simulate_trade`. -/
def longSignal (conf entry sl tp1 tp2 tp3 : ℚ) : AggregatedSignal :=
  { direction := .LONG, confidence := conf, entryPrice := entry,
    stopLoss := some sl, takeProfit1 := some tp1, takeProfit2 := some tp2,
    takeProfit3 := some tp3 }

/-- The trade spec `simulate_trade` extracts from such a signal. -/
def longSpec (conf entry sl tp1 tp2 tp3 : ℚ) : TradeSpec :=
  { direction := .LONG, confidence := conf, entryPrice := entry,
    stopLoss := sl, tp1 := tp1, tp2 := tp2, tp3 := tp3 }

/-- Shorthand for a candle in which only the price fields matter. -/
def mkCandle (t : ℤ) (o h l c : ℚ) : Candle :=
  { openTime := t, openPrice := o, high := h, low := l, close := c, volume := 1,
    closeTime := t + 1, quoteVolume := 0, trades := 0, takerBase := 0,
    takerQuote := 0, ignoreField := 0 }

/-- Quiet candle, then a candle whose low breaches the stop while its
high also reaches TP1. -/
def candlesStopFirst : List Candle :=
  [mkCandle 1 100 101 99 100, mkCandle 2 100 106 94 95]

/-- A candle that hits TP1 only, a quiet candle, then a candle that
falls back to the entry price. -/
def candlesBreakeven : List Candle :=
  [mkCandle 1 100 106 99 105, mkCandle 2 105 107 101 104, mkCandle 3 104 106 100 101]

/-- A candle that hits TP1 only, then a quiet candle; the walk ends with
the trade still open. -/
def candlesTp1Open : List Candle :=
  [mkCandle 1 100 106 99 105, mkCandle 2 105 107 101 104]

/-- A single candle that sweeps the stop relocation scenario: the trade
enters with the original stop untouched and the candle reaches TP3 while
its low is back at the entry price. -/
def candleSweep : Candle := mkCandle 1 100 116 96 115

/-- A SHORT trade spec with entry 100, stop 105 and targets 95/90/85. -/
def shortSpecDemo : TradeSpec :=
  { direction := .SHORT, confidence := 80, entryPrice := 100,
    stopLoss := 105, tp1 := 95, tp2 := 90, tp3 := 85 }

/-- A single candle that sweeps a SHORT trade to TP3 while its high is
back at the entry price (crossing the relocated breakeven stop). -/
def candleSweepShort : Candle := mkCandle 1 100 104 84 85

/-- Four source candles for the aggregation witness. -/
def candlesAgg : List Candle :=
  [mkCandle 0 10 12 9 11, mkCandle 1 11 15 10 14, mkCandle 2 14 16 8 9,
   mkCandle 3 9 13 7 12]

end TradingBot

/-! ## Theorems -/

namespace TradingBot

lemma calculateSlTp_direction (cfg : AggConfig) (atr : ℚ) (s : AggregatedSignal) :
    (calculateSlTp cfg atr s).direction = s.direction := by
  unfold calculateSlTp; split_ifs <;> rfl

lemma calculateSlTp_confidence (cfg : AggConfig) (atr : ℚ) (s : AggregatedSignal) :
    (calculateSlTp cfg atr s).confidence = s.confidence := by
  unfold calculateSlTp; split_ifs <;> rfl

lemma aggregate_direction_eq (cfg : AggConfig) (adx entryPrice atr : ℚ)
    (results : List StrategyResult) :
    (aggregate cfg adx entryPrice atr results).direction =
      (if minVotes cfg results.length ≤ voteCount cfg .LONG results ∧
          cfg.threshold ≤ consensus cfg adx .LONG results ∧
          voteCount cfg .SHORT results < voteCount cfg .LONG results then .LONG
       else if minVotes cfg results.length ≤ voteCount cfg .SHORT results ∧
          cfg.threshold ≤ consensus cfg adx .SHORT results ∧
          voteCount cfg .LONG results < voteCount cfg .SHORT results then .SHORT
       else .NEUTRAL) := by
  by_cases hL : minVotes cfg results.length ≤ voteCount cfg .LONG results ∧
      cfg.threshold ≤ consensus cfg adx .LONG results ∧
      voteCount cfg .SHORT results < voteCount cfg .LONG results
  · simp [aggregate, hL, calculateSlTp_direction]
  · by_cases hS : minVotes cfg results.length ≤ voteCount cfg .SHORT results ∧
        cfg.threshold ≤ consensus cfg adx .SHORT results ∧
        voteCount cfg .LONG results < voteCount cfg .SHORT results
    · simp [aggregate, hL, hS, calculateSlTp_direction]
    · simp [aggregate, hL, hS]

lemma aggregate_confidence_eq (cfg : AggConfig) (adx entryPrice atr : ℚ)
    (results : List StrategyResult) :
    (aggregate cfg adx entryPrice atr results).confidence =
      (if minVotes cfg results.length ≤ voteCount cfg .LONG results ∧
          cfg.threshold ≤ consensus cfg adx .LONG results ∧
          voteCount cfg .SHORT results < voteCount cfg .LONG results then
        consensus cfg adx .LONG results
       else if minVotes cfg results.length ≤ voteCount cfg .SHORT results ∧
          cfg.threshold ≤ consensus cfg adx .SHORT results ∧
          voteCount cfg .LONG results < voteCount cfg .SHORT results then
        consensus cfg adx .SHORT results
       else max (consensus cfg adx .LONG results) (consensus cfg adx .SHORT results)) := by
  by_cases hL : minVotes cfg results.length ≤ voteCount cfg .LONG results ∧
      cfg.threshold ≤ consensus cfg adx .LONG results ∧
      voteCount cfg .SHORT results < voteCount cfg .LONG results
  · simp [aggregate, hL, calculateSlTp_confidence]
  · by_cases hS : minVotes cfg results.length ≤ voteCount cfg .SHORT results ∧
        cfg.threshold ≤ consensus cfg adx .SHORT results ∧
        voteCount cfg .LONG results < voteCount cfg .SHORT results
    · simp [aggregate, hL, hS, calculateSlTp_confidence]
    · simp [aggregate, hL, hS]

lemma aggregate_sltp_of_neutral (cfg : AggConfig) (adx entryPrice atr : ℚ)
    (results : List StrategyResult)
    (h : (aggregate cfg adx entryPrice atr results).direction = .NEUTRAL) :
    (aggregate cfg adx entryPrice atr results).stopLoss = none ∧
    (aggregate cfg adx entryPrice atr results).takeProfit1 = none ∧
    (aggregate cfg adx entryPrice atr results).takeProfit2 = none ∧
    (aggregate cfg adx entryPrice atr results).takeProfit3 = none := by
  rw [aggregate_direction_eq] at h
  by_cases hL : minVotes cfg results.length ≤ voteCount cfg .LONG results ∧
      cfg.threshold ≤ consensus cfg adx .LONG results ∧
      voteCount cfg .SHORT results < voteCount cfg .LONG results
  · simp [hL] at h
  · by_cases hS : minVotes cfg results.length ≤ voteCount cfg .SHORT results ∧
        cfg.threshold ≤ consensus cfg adx .SHORT results ∧
        voteCount cfg .LONG results < voteCount cfg .SHORT results
    · simp [hL, hS] at h
    · simp [aggregate, hL, hS]

lemma aggregate_sltp_of_long (cfg : AggConfig) (adx entryPrice atr : ℚ)
    (results : List StrategyResult)
    (h : (aggregate cfg adx entryPrice atr results).direction = .LONG) :
    (aggregate cfg adx entryPrice atr results).stopLoss =
      some (entryPrice - cfg.stopMultiplier * atr) ∧
    (aggregate cfg adx entryPrice atr results).takeProfit1 =
      (cfg.tpMultipliers.get? 0).map (fun m => entryPrice + m * atr) ∧
    (aggregate cfg adx entryPrice atr results).takeProfit2 =
      (cfg.tpMultipliers.get? 1).map (fun m => entryPrice + m * atr) ∧
    (aggregate cfg adx entryPrice atr results).takeProfit3 =
      (cfg.tpMultipliers.get? 2).map (fun m => entryPrice + m * atr) := by
  rw [aggregate_direction_eq] at h
  by_cases hL : minVotes cfg results.length ≤ voteCount cfg .LONG results ∧
      cfg.threshold ≤ consensus cfg adx .LONG results ∧
      voteCount cfg .SHORT results < voteCount cfg .LONG results
  · simp [aggregate, hL, calculateSlTp]
  · by_cases hS : minVotes cfg results.length ≤ voteCount cfg .SHORT results ∧
        cfg.threshold ≤ consensus cfg adx .SHORT results ∧
        voteCount cfg .LONG results < voteCount cfg .SHORT results
    · simp [hL, hS] at h
    · simp [hL, hS] at h

lemma aggregate_sltp_of_short (cfg : AggConfig) (adx entryPrice atr : ℚ)
    (results : List StrategyResult)
    (h : (aggregate cfg adx entryPrice atr results).direction = .SHORT) :
    (aggregate cfg adx entryPrice atr results).stopLoss =
      some (entryPrice + cfg.stopMultiplier * atr) ∧
    (aggregate cfg adx entryPrice atr results).takeProfit1 =
      (cfg.tpMultipliers.get? 0).map (fun m => entryPrice - m * atr) ∧
    (aggregate cfg adx entryPrice atr results).takeProfit2 =
      (cfg.tpMultipliers.get? 1).map (fun m => entryPrice - m * atr) ∧
    (aggregate cfg adx entryPrice atr results).takeProfit3 =
      (cfg.tpMultipliers.get? 2).map (fun m => entryPrice - m * atr) := by
  rw [aggregate_direction_eq] at h
  by_cases hL : minVotes cfg results.length ≤ voteCount cfg .LONG results ∧
      cfg.threshold ≤ consensus cfg adx .LONG results ∧
      voteCount cfg .SHORT results < voteCount cfg .LONG results
  · simp [hL] at h
  · by_cases hS : minVotes cfg results.length ≤ voteCount cfg .SHORT results ∧
        cfg.threshold ≤ consensus cfg adx .SHORT results ∧
        voteCount cfg .LONG results < voteCount cfg .SHORT results
    · simp [aggregate, hL, hS, calculateSlTp]
    · simp [hL, hS] at h

end TradingBot

namespace TradingBot

@[simp] lemma decide_eq_dir_ll : decide (Direction.LONG = Direction.LONG) = true := rfl
@[simp] lemma decide_eq_dir_ls : decide (Direction.LONG = Direction.SHORT) = false := rfl
@[simp] lemma decide_eq_dir_ln : decide (Direction.LONG = Direction.NEUTRAL) = false := rfl
@[simp] lemma decide_eq_dir_sl : decide (Direction.SHORT = Direction.LONG) = false := rfl
@[simp] lemma decide_eq_dir_ss : decide (Direction.SHORT = Direction.SHORT) = true := rfl
@[simp] lemma decide_eq_dir_sn : decide (Direction.SHORT = Direction.NEUTRAL) = false := rfl
@[simp] lemma decide_eq_dir_nl : decide (Direction.NEUTRAL = Direction.LONG) = false := rfl
@[simp] lemma decide_eq_dir_ns : decide (Direction.NEUTRAL = Direction.SHORT) = false := rfl
@[simp] lemma decide_eq_dir_nn : decide (Direction.NEUTRAL = Direction.NEUTRAL) = true := rfl

@[simp] lemma aggCfgDemo_threshold : aggCfgDemo.threshold = 60 := rfl
@[simp] lemma aggCfgDemo_minVoteConfidence : aggCfgDemo.minVoteConfidence = 30 := rfl
@[simp] lemma aggCfgDemo_minVoteShare : aggCfgDemo.minVoteShare = 0.66 := rfl
@[simp] lemma aggCfgDemo_perfWeight (n : String) : aggCfgDemo.perfWeight n = 1 := rfl
@[simp] lemma aggCfgDemo_stabilityWeight (n : String) : aggCfgDemo.stabilityWeight n = 1 := rfl
@[simp] lemma aggCfgDemo_corrPenalty (n : String) : aggCfgDemo.corrPenalty n = 1 := rfl

lemma demo_voteCount_long : voteCount aggCfgDemo .LONG aggResultsSplit = 2 := by
  simp [voteCount, isVote, aggResultsSplit]
  norm_num

lemma demo_voteCount_short : voteCount aggCfgDemo .SHORT aggResultsSplit = 1 := by
  simp [voteCount, isVote, aggResultsSplit]
  norm_num

lemma demo_minVotes : minVotes aggCfgDemo 3 = 2 := by
  have h : (⌈(3:ℚ) * (0.66:ℚ)⌉ : ℤ) = 2 := by
    rw [Int.ceil_eq_iff]
    norm_num
  simp [minVotes, h]

lemma demo_actualWeight_one (r : StrategyResult) (h1 : r.weight = 1)
    (h2 : r.name ∉ TREND_STRATEGY_NAMES) (h3 : r.name ∉ RANGE_STRATEGY_NAMES) :
    actualWeight aggCfgDemo 0 r = 1 := by
  simp only [actualWeight, regimeMultiplier, h1, h2, h3, if_false,
    aggCfgDemo_perfWeight, aggCfgDemo_stabilityWeight, aggCfgDemo_corrPenalty]
  norm_num [MIN_ACTUAL_WEIGHT, MAX_ACTUAL_WEIGHT, ADX_TREND_THRESHOLD, ADX_RANGE_THRESHOLD]

lemma demo_consensus_long : consensus aggCfgDemo 0 .LONG aggResultsSplit = 60 := by
  have hA : actualWeight aggCfgDemo 0
      { direction := .LONG, confidence := 60, weight := 1, name := "A" } = 1 := by
    apply demo_actualWeight_one <;> simp [TREND_STRATEGY_NAMES, RANGE_STRATEGY_NAMES]
  have hB : actualWeight aggCfgDemo 0
      { direction := .LONG, confidence := 60, weight := 1, name := "B" } = 1 := by
    apply demo_actualWeight_one <;> simp [TREND_STRATEGY_NAMES, RANGE_STRATEGY_NAMES]
  simp [consensus, avgConfidence, voteCount, confSum, weightSum,
    aggResultsSplit, isVote, demo_minVotes, voteBonus, hA, hB,
    MIN_AVG_CONFIDENCE, VOTE_BONUS]
  norm_num [demo_minVotes, hA, hB]

lemma demo_consensus_short : consensus aggCfgDemo 0 .SHORT aggResultsSplit = 90 := by
  have hC : actualWeight aggCfgDemo 0
      { direction := .SHORT, confidence := 90, weight := 1, name := "C" } = 1 := by
    apply demo_actualWeight_one <;> simp [TREND_STRATEGY_NAMES, RANGE_STRATEGY_NAMES]
  simp [consensus, avgConfidence, voteCount, confSum, weightSum,
    aggResultsSplit, isVote, demo_minVotes, voteBonus, hC,
    MIN_AVG_CONFIDENCE, VOTE_BONUS]
  norm_num [demo_minVotes, hC]

lemma demo_toNat_ceil : Int.toNat ⌈(3:ℚ) * (0.66:ℚ)⌉ = 2 := by
  have h : (⌈(3:ℚ) * (0.66:ℚ)⌉ : ℤ) = 2 := by
    rw [Int.ceil_eq_iff]
    norm_num
  rw [h]
  rfl

/-- C1: the aggregator's final direction requires eligibility and a
strict vote majority, but — contrary to the claim — it never compares
the two consensus confidences: on this input the LONG side wins with
consensus 60 while the SHORT consensus is 90. -/
theorem C1_counterexample :
    (aggregate aggCfgDemo 0 100 0 aggResultsSplit).direction = .LONG ∧
    consensus aggCfgDemo 0 .LONG aggResultsSplit <
      consensus aggCfgDemo 0 .SHORT aggResultsSplit := by
  constructor
  · rw [aggregate_direction_eq]
    have hlen : aggResultsSplit.length = 3 := rfl
    rw [hlen]
    rw [demo_minVotes, demo_voteCount_long, demo_voteCount_short,
      demo_consensus_long, aggCfgDemo_threshold]
    norm_num
  · rw [demo_consensus_long, demo_consensus_short]
    norm_num

/-- C1 (amended): `aggregate` returns LONG (resp. SHORT) exactly when
that side has at least `min_votes` qualifying votes, its consensus
confidence reaches the signal threshold, and it has strictly more votes
than the other side — no comparison between the two consensus
confidences is made; in every other case the direction is NEUTRAL and
the reported confidence is the maximum of the two consensus scores. -/
theorem C1_direction_rule (cfg : AggConfig) (adx entryPrice atr : ℚ)
    (results : List StrategyResult) :
    ((aggregate cfg adx entryPrice atr results).direction = .LONG ↔
      minVotes cfg results.length ≤ voteCount cfg .LONG results ∧
      cfg.threshold ≤ consensus cfg adx .LONG results ∧
      voteCount cfg .SHORT results < voteCount cfg .LONG results) ∧
    ((aggregate cfg adx entryPrice atr results).direction = .SHORT ↔
      minVotes cfg results.length ≤ voteCount cfg .SHORT results ∧
      cfg.threshold ≤ consensus cfg adx .SHORT results ∧
      voteCount cfg .LONG results < voteCount cfg .SHORT results) ∧
    ((aggregate cfg adx entryPrice atr results).direction = .NEUTRAL →
      (aggregate cfg adx entryPrice atr results).confidence =
        max (consensus cfg adx .LONG results) (consensus cfg adx .SHORT results)) ∧
    ((aggregate cfg adx entryPrice atr results).direction = .LONG →
      (aggregate cfg adx entryPrice atr results).confidence =
        consensus cfg adx .LONG results) ∧
    ((aggregate cfg adx entryPrice atr results).direction = .SHORT →
      (aggregate cfg adx entryPrice atr results).confidence =
        consensus cfg adx .SHORT results) := by
  rw [aggregate_direction_eq, aggregate_confidence_eq]
  by_cases hL : minVotes cfg results.length ≤ voteCount cfg .LONG results ∧
      cfg.threshold ≤ consensus cfg adx .LONG results ∧
      voteCount cfg .SHORT results < voteCount cfg .LONG results
  · have hnS : ¬(minVotes cfg results.length ≤ voteCount cfg .SHORT results ∧
        cfg.threshold ≤ consensus cfg adx .SHORT results ∧
        voteCount cfg .LONG results < voteCount cfg .SHORT results) := by
      rintro ⟨-, -, h⟩
      exact absurd (h.trans hL.2.2) (lt_irrefl _)
    simp [hL, hnS]
  · by_cases hS : minVotes cfg results.length ≤ voteCount cfg .SHORT results ∧
        cfg.threshold ≤ consensus cfg adx .SHORT results ∧
        voteCount cfg .LONG results < voteCount cfg .SHORT results
    · simp [hL, hS]
    · simp [hL, hS]

/-- Witness for C1_direction_rule at the split-vote input. -/
theorem C1_direction_rule_witness :
    (aggregate aggCfgDemo 0 100 0 aggResultsSplit).confidence =
      consensus aggCfgDemo 0 .LONG aggResultsSplit :=
  (C1_direction_rule aggCfgDemo 0 100 0 aggResultsSplit).2.2.2.1 (by
    rw [aggregate_direction_eq]
    have hlen : aggResultsSplit.length = 3 := rfl
    rw [hlen, demo_minVotes, demo_voteCount_long, demo_voteCount_short,
      demo_consensus_long, aggCfgDemo_threshold]
    norm_num)

/-- C4: fewer qualifying votes than `ceil(total * min_vote_ratio)` on a
side means the aggregate direction is never that side, regardless of any
confidence values. -/
theorem C4_min_votes_gate (cfg : AggConfig) (adx entryPrice atr : ℚ)
    (results : List StrategyResult) :
    (voteCount cfg .LONG results <
        Int.toNat ⌈(results.length : ℚ) * cfg.minVoteShare⌉ →
      (aggregate cfg adx entryPrice atr results).direction ≠ .LONG) ∧
    (voteCount cfg .SHORT results <
        Int.toNat ⌈(results.length : ℚ) * cfg.minVoteShare⌉ →
      (aggregate cfg adx entryPrice atr results).direction ≠ .SHORT) := by
  have hmv : Int.toNat ⌈(results.length : ℚ) * cfg.minVoteShare⌉ ≤
      minVotes cfg results.length := le_max_right _ _
  rw [aggregate_direction_eq]
  constructor
  · intro h
    have hnL : ¬(minVotes cfg results.length ≤ voteCount cfg .LONG results ∧
        cfg.threshold ≤ consensus cfg adx .LONG results ∧
        voteCount cfg .SHORT results < voteCount cfg .LONG results) := by
      rintro ⟨h1, -, -⟩
      exact absurd (hmv.trans h1) (Nat.not_le.mpr h)
    simp only [if_neg hnL]
    split_ifs <;> simp
  · intro h
    have hnS : ¬(minVotes cfg results.length ≤ voteCount cfg .SHORT results ∧
        cfg.threshold ≤ consensus cfg adx .SHORT results ∧
        voteCount cfg .LONG results < voteCount cfg .SHORT results) := by
      rintro ⟨h1, -, -⟩
      exact absurd (hmv.trans h1) (Nat.not_le.mpr h)
    split_ifs <;> simp [hnS]

/-- Witness for C4_min_votes_gate on an all-NEUTRAL batch. -/
theorem C4_min_votes_gate_witness :
    (aggregate aggCfgDemo 0 100 0 aggResultsNeutral).direction ≠ .LONG ∧
    (aggregate aggCfgDemo 0 100 0 aggResultsNeutral).direction ≠ .SHORT := by
  have hL : voteCount aggCfgDemo .LONG aggResultsNeutral = 0 := by
    simp [voteCount, isVote, aggResultsNeutral]
  have hS : voteCount aggCfgDemo .SHORT aggResultsNeutral = 0 := by
    simp [voteCount, isVote, aggResultsNeutral]
  have hlen : aggResultsNeutral.length = 3 := rfl
  refine ⟨(C4_min_votes_gate aggCfgDemo 0 100 0 aggResultsNeutral).1 ?_,
    (C4_min_votes_gate aggCfgDemo 0 100 0 aggResultsNeutral).2 ?_⟩
  · rw [hL, hlen, aggCfgDemo_minVoteShare]
    simp [demo_toNat_ceil]
  · rw [hS, hlen, aggCfgDemo_minVoteShare]
    simp [demo_toNat_ceil]

/-- C6: with a window shorter than the 14-candle lookback the ADX is 0,
but the regime multiplier is then NOT 1 for tagged strategies: a
trend-tagged strategy is dampened to 0.5. -/
theorem C6_counterexample :
    getAdx 5 50 = 0 ∧
    regimeMultiplier (getAdx 5 50) "TrendFollowStrategy" = RANGE_DAMPEN ∧
    regimeMultiplier (getAdx 5 50) "TrendFollowStrategy" ≠ 1 := by
  have h0 : getAdx 5 50 = 0 := by norm_num [getAdx]
  have h1 : regimeMultiplier (getAdx 5 50) "TrendFollowStrategy" = RANGE_DAMPEN := by
    rw [h0]
    simp [regimeMultiplier, TREND_STRATEGY_NAMES, RANGE_STRATEGY_NAMES]
    norm_num [ADX_TREND_THRESHOLD, ADX_RANGE_THRESHOLD]
  refine ⟨h0, h1, ?_⟩
  rw [h1]
  norm_num [RANGE_DAMPEN]

lemma demo_direction_split (atr : ℚ) :
    (aggregate aggCfgDemo 0 100 atr aggResultsSplit).direction = .LONG := by
  rw [aggregate_direction_eq]
  have hlen : aggResultsSplit.length = 3 := rfl
  rw [hlen, demo_minVotes, demo_voteCount_long, demo_voteCount_short,
    demo_consensus_long, aggCfgDemo_threshold]
  norm_num

lemma demo_direction_neutral (atr : ℚ) :
    (aggregate aggCfgDemo 0 100 atr aggResultsNeutral).direction = .NEUTRAL := by
  rw [aggregate_direction_eq]
  have h0 : voteCount aggCfgDemo .LONG aggResultsNeutral = 0 := by
    simp [voteCount, isVote, aggResultsNeutral]
  have h1 : voteCount aggCfgDemo .SHORT aggResultsNeutral = 0 := by
    simp [voteCount, isVote, aggResultsNeutral]
  rw [h0, h1]
  have hfalse : ¬(minVotes aggCfgDemo aggResultsNeutral.length ≤ 0) := by
    intro hle
    have hone : (1:ℕ) ≤ minVotes aggCfgDemo aggResultsNeutral.length := le_max_left _ _
    omega
  rw [if_neg (fun hc => hfalse hc.1), if_neg (fun hc => hfalse hc.1)]

/-- C6 (amended): with a window shorter than the 14-candle volatility
lookback the ADX defaults to 0; at ADX 0 the regime multiplier is
RANGE_BOOST for range-tagged, RANGE_DAMPEN for trend-tagged and 1 only
for untagged strategies; and the aggregated signal's stop loss is unset
EXACTLY when the final direction is NEUTRAL — for a NEUTRAL direction
all of SL/TP1..3 stay None, while for a LONG or SHORT direction the
aggregator unconditionally assigns them from the ATR (entry ∓
multiplier·ATR), with no window-length guard. -/
theorem C6_short_window (dataLen : ℕ) (computed : ℚ) (name : String)
    (cfg : AggConfig) (adx entryPrice atr : ℚ) (results : List StrategyResult)
    (h : dataLen < 14) :
    getAdx dataLen computed = 0 ∧
    regimeMultiplier (getAdx dataLen computed) name =
      (if name ∈ RANGE_STRATEGY_NAMES then RANGE_BOOST
       else if name ∈ TREND_STRATEGY_NAMES then RANGE_DAMPEN else 1) ∧
    ((aggregate cfg adx entryPrice atr results).direction = .NEUTRAL →
      (aggregate cfg adx entryPrice atr results).stopLoss = none ∧
      (aggregate cfg adx entryPrice atr results).takeProfit1 = none ∧
      (aggregate cfg adx entryPrice atr results).takeProfit2 = none ∧
      (aggregate cfg adx entryPrice atr results).takeProfit3 = none) ∧
    ((aggregate cfg adx entryPrice atr results).stopLoss = none ↔
      (aggregate cfg adx entryPrice atr results).direction = .NEUTRAL) ∧
    ((aggregate cfg adx entryPrice atr results).direction = .LONG →
      (aggregate cfg adx entryPrice atr results).stopLoss =
        some (entryPrice - cfg.stopMultiplier * atr) ∧
      (aggregate cfg adx entryPrice atr results).takeProfit1 =
        (cfg.tpMultipliers.get? 0).map (fun m => entryPrice + m * atr) ∧
      (aggregate cfg adx entryPrice atr results).takeProfit2 =
        (cfg.tpMultipliers.get? 1).map (fun m => entryPrice + m * atr) ∧
      (aggregate cfg adx entryPrice atr results).takeProfit3 =
        (cfg.tpMultipliers.get? 2).map (fun m => entryPrice + m * atr)) ∧
    ((aggregate cfg adx entryPrice atr results).direction = .SHORT →
      (aggregate cfg adx entryPrice atr results).stopLoss =
        some (entryPrice + cfg.stopMultiplier * atr) ∧
      (aggregate cfg adx entryPrice atr results).takeProfit1 =
        (cfg.tpMultipliers.get? 0).map (fun m => entryPrice - m * atr) ∧
      (aggregate cfg adx entryPrice atr results).takeProfit2 =
        (cfg.tpMultipliers.get? 1).map (fun m => entryPrice - m * atr) ∧
      (aggregate cfg adx entryPrice atr results).takeProfit3 =
        (cfg.tpMultipliers.get? 2).map (fun m => entryPrice - m * atr)) := by
  have h0 : getAdx dataLen computed = 0 := by simp [getAdx, h]
  refine ⟨h0, ?_, aggregate_sltp_of_neutral cfg adx entryPrice atr results, ?_,
    aggregate_sltp_of_long cfg adx entryPrice atr results,
    aggregate_sltp_of_short cfg adx entryPrice atr results⟩
  · rw [h0]
    unfold regimeMultiplier
    rw [if_neg (by norm_num [ADX_TREND_THRESHOLD]),
      if_pos (by norm_num [ADX_RANGE_THRESHOLD])]
  · constructor
    · intro hnone
      rcases hdir : (aggregate cfg adx entryPrice atr results).direction
      · rw [(aggregate_sltp_of_long cfg adx entryPrice atr results hdir).1] at hnone
        exact absurd hnone (by simp)
      · rw [(aggregate_sltp_of_short cfg adx entryPrice atr results hdir).1] at hnone
        exact absurd hnone (by simp)
      · rfl
    · intro hneut
      exact (aggregate_sltp_of_neutral cfg adx entryPrice atr results hneut).1

/-- Witness for C6_short_window on a 5-candle window, exercising both a
LONG outcome (SL/TP assigned from the ATR) and a NEUTRAL outcome (SL/TP
left unset). -/
theorem C6_short_window_witness :
    getAdx 5 50 = 0 ∧
    regimeMultiplier (getAdx 5 50) "TrendFollowStrategy" =
      (if "TrendFollowStrategy" ∈ RANGE_STRATEGY_NAMES then RANGE_BOOST
       else if "TrendFollowStrategy" ∈ TREND_STRATEGY_NAMES then RANGE_DAMPEN else 1) ∧
    ((aggregate aggCfgDemo 0 100 1 aggResultsSplit).stopLoss = none ↔
      (aggregate aggCfgDemo 0 100 1 aggResultsSplit).direction = .NEUTRAL) ∧
    ((aggregate aggCfgDemo 0 100 1 aggResultsSplit).stopLoss =
      some (100 - aggCfgDemo.stopMultiplier * 1) ∧
     (aggregate aggCfgDemo 0 100 1 aggResultsSplit).takeProfit1 =
       (aggCfgDemo.tpMultipliers.get? 0).map (fun m => 100 + m * 1) ∧
     (aggregate aggCfgDemo 0 100 1 aggResultsSplit).takeProfit2 =
       (aggCfgDemo.tpMultipliers.get? 1).map (fun m => 100 + m * 1) ∧
     (aggregate aggCfgDemo 0 100 1 aggResultsSplit).takeProfit3 =
       (aggCfgDemo.tpMultipliers.get? 2).map (fun m => 100 + m * 1)) ∧
    ((aggregate aggCfgDemo 0 100 1 aggResultsNeutral).stopLoss = none ∧
     (aggregate aggCfgDemo 0 100 1 aggResultsNeutral).takeProfit1 = none ∧
     (aggregate aggCfgDemo 0 100 1 aggResultsNeutral).takeProfit2 = none ∧
     (aggregate aggCfgDemo 0 100 1 aggResultsNeutral).takeProfit3 = none) :=
  ⟨(C6_short_window 5 50 "TrendFollowStrategy" aggCfgDemo 0 100 1 aggResultsSplit
      (by norm_num)).1,
   (C6_short_window 5 50 "TrendFollowStrategy" aggCfgDemo 0 100 1 aggResultsSplit
      (by norm_num)).2.1,
   (C6_short_window 5 50 "TrendFollowStrategy" aggCfgDemo 0 100 1 aggResultsSplit
      (by norm_num)).2.2.2.1,
   (C6_short_window 5 50 "TrendFollowStrategy" aggCfgDemo 0 100 1 aggResultsSplit
      (by norm_num)).2.2.2.2.1 (demo_direction_split 1),
   (C6_short_window 5 50 "TrendFollowStrategy" aggCfgDemo 0 100 1 aggResultsNeutral
      (by norm_num)).2.2.1 (demo_direction_neutral 1)⟩

/-- C5: a strategy that raises is replaced by a NEUTRAL result with
confidence 0 — which is NOT inside the claimed range [5, 95]. -/
theorem C5_counterexample :
    errorResult "BadStrategy" ∈ runAllStrategies stratBatchDemo ∧
    (errorResult "BadStrategy").confidence < 5 := by
  constructor
  · simp [runAllStrategies, stratBatchDemo]
  · norm_num [errorResult]

/-- C5 (amended): a batch run never shrinks the batch; every produced
result has a direction in LONG/SHORT/NEUTRAL; a result of a successful
run has its confidence clamped to [5, 95], while a raising strategy
yields exactly the NEUTRAL, zero-confidence, zero-weight result tagged
with its class name. -/
theorem C5_batch (strategies : List (String × Option StrategyResult)) :
    (runAllStrategies strategies).length = strategies.length ∧
    ∀ r ∈ runAllStrategies strategies,
      (r.direction = .LONG ∨ r.direction = .SHORT ∨ r.direction = .NEUTRAL) ∧
      ((∃ raw, (r.name, some raw) ∈ strategies ∧ r = baseStrategyRun r.name raw ∧
          5 ≤ r.confidence ∧ r.confidence ≤ 95) ∨
        ((r.name, none) ∈ strategies ∧ r = errorResult r.name)) := by
  constructor
  · simp [runAllStrategies]
  · intro r hr
    constructor
    · rcases hd : r.direction <;> simp
    · simp only [runAllStrategies, List.mem_map] at hr
      obtain ⟨⟨nm, ov⟩, hp, hfr⟩ := hr
      rcases ov with _ | raw
      · right
        have hfr' : errorResult nm = r := hfr
        have hname : r.name = nm := by rw [← hfr']; simp [errorResult]
        refine ⟨?_, ?_⟩
        · rw [hname]
          exact hp
        · rw [hname, ← hfr']
      · left
        have hfr' : baseStrategyRun nm raw = r := hfr
        have hname : r.name = nm := by rw [← hfr']; simp [baseStrategyRun]
        refine ⟨raw, ?_, ?_, ?_, ?_⟩
        · rw [hname]
          exact hp
        · rw [hname, ← hfr']
        · rw [← hfr']
          exact le_max_left _ _
        · rw [← hfr']
          exact max_le (by norm_num) (min_le_left _ _)

/-- Witness for C5_batch on a two-strategy batch with one failure. -/
theorem C5_batch_witness :
    (runAllStrategies stratBatchDemo).length = stratBatchDemo.length ∧
    (((errorResult "BadStrategy").direction = .LONG ∨
      (errorResult "BadStrategy").direction = .SHORT ∨
      (errorResult "BadStrategy").direction = .NEUTRAL) ∧
     ((∃ raw, ((errorResult "BadStrategy").name, some raw) ∈ stratBatchDemo ∧
         errorResult "BadStrategy" =
           baseStrategyRun (errorResult "BadStrategy").name raw ∧
         5 ≤ (errorResult "BadStrategy").confidence ∧
         (errorResult "BadStrategy").confidence ≤ 95) ∨
       (((errorResult "BadStrategy").name, none) ∈ stratBatchDemo ∧
         errorResult "BadStrategy" = errorResult (errorResult "BadStrategy").name))) :=
  ⟨(C5_batch stratBatchDemo).1,
   (C5_batch stratBatchDemo).2 (errorResult "BadStrategy")
     (by simp [runAllStrategies, stratBatchDemo])⟩

section SimulationLemmas

lemma stepTrade_eq_stepLong (spec : TradeSpec) (h : spec.direction = .LONG) :
    stepTrade spec = stepLong spec := by
  funext s c
  simp [stepTrade, h]

lemma stepLong_frozen (spec : TradeSpec) (s : SimState) (c : Candle)
    (h : s.result ≠ .TIMEOUT) : stepLong spec s c = s := by
  simp [stepLong, h]

lemma foldl_stepLong_frozen (spec : TradeSpec) (l : List Candle) (s : SimState)
    (h : s.result ≠ .TIMEOUT) : l.foldl (stepLong spec) s = s := by
  induction l with
  | nil => rfl
  | cons c cs ih => rw [List.foldl_cons, stepLong_frozen spec s c h]; exact ih

lemma stepLong_quiet_init (spec : TradeSpec) (c : Candle) (n : ℕ)
    (hlow : spec.stopLoss < c.low) (hhigh : c.high < spec.tp1) :
    stepLong spec { initState spec with idx := n } c =
      { initState spec with idx := n + 1 } := by
  simp [stepLong, initState, applyTp1L, applyTp2L, applyTp3L,
    not_le.mpr hlow, not_le.mpr hhigh]

lemma foldl_quiet_init (spec : TradeSpec) (pre : List Candle) (n : ℕ)
    (hq : ∀ c ∈ pre, spec.stopLoss < c.low ∧ c.high < spec.tp1) :
    pre.foldl (stepLong spec) { initState spec with idx := n } =
      { initState spec with idx := n + pre.length } := by
  induction pre generalizing n with
  | nil => simp
  | cons c cs ih =>
    rw [List.foldl_cons,
      stepLong_quiet_init spec c n (hq c (.head _)).1 (hq c (.head _)).2,
      ih (n + 1) (fun x hx => hq x (.tail _ hx))]
    have hlen : n + 1 + cs.length = n + (c :: cs).length := by
      simp only [List.length_cons]
      omega
    rw [hlen]

lemma stepLong_sl_exit (spec : TradeSpec) (s : SimState) (c : Candle)
    (hres : s.result = .TIMEOUT) (h : c.low ≤ s.currentSl) :
    stepLong spec s c = slExit s c := by
  simp [stepLong, hres, h]

lemma stepLong_tp1_init (spec : TradeSpec) (c : Candle) (n : ℕ)
    (hlow : spec.stopLoss < c.low) (h1 : spec.tp1 ≤ c.high) (h2 : c.high < spec.tp2) :
    stepLong spec { initState spec with idx := n } c =
      { initState spec with
          tp1Hit := true
          currentSl := spec.entryPrice
          slType := .BREAKEVEN
          relocIdx := some n
          idx := n + 1 } := by
  simp [stepLong, initState, applyTp1L, applyTp2L, applyTp3L,
    not_le.mpr hlow, h1, not_le.mpr h2]

lemma stepLong_quiet_tp1 (spec : TradeSpec) (c : Candle) (i n : ℕ)
    (hlow : spec.entryPrice < c.low) (hhigh : c.high < spec.tp2) :
    stepLong spec
      { initState spec with
          tp1Hit := true
          currentSl := spec.entryPrice
          slType := .BREAKEVEN
          relocIdx := some i
          idx := n } c =
      { initState spec with
          tp1Hit := true
          currentSl := spec.entryPrice
          slType := .BREAKEVEN
          relocIdx := some i
          idx := n + 1 } := by
  simp [stepLong, initState, applyTp1L, applyTp2L, applyTp3L,
    not_le.mpr hlow, not_le.mpr hhigh]

lemma foldl_quiet_tp1 (spec : TradeSpec) (mid : List Candle) (i n : ℕ)
    (hq : ∀ c ∈ mid, spec.entryPrice < c.low ∧ c.high < spec.tp2) :
    mid.foldl (stepLong spec)
      { initState spec with
          tp1Hit := true
          currentSl := spec.entryPrice
          slType := .BREAKEVEN
          relocIdx := some i
          idx := n } =
      { initState spec with
          tp1Hit := true
          currentSl := spec.entryPrice
          slType := .BREAKEVEN
          relocIdx := some i
          idx := n + mid.length } := by
  induction mid generalizing n with
  | nil => simp
  | cons c cs ih =>
    rw [List.foldl_cons,
      stepLong_quiet_tp1 spec c i n (hq c (.head _)).1 (hq c (.head _)).2,
      ih (n + 1) (fun x hx => hq x (.tail _ hx))]
    have hlen : n + 1 + cs.length = n + (c :: cs).length := by
      simp only [List.length_cons]
      omega
    rw [hlen]

end SimulationLemmas

lemma simulateTradeAux_exit (spec : TradeSpec) (future : List Candle)
    (hne : future ≠ [])
    (hres : (future.foldl (stepTrade spec) (initState spec)).result ≠ .TIMEOUT) :
    simulateTradeAux spec future =
      { tradeOfState spec (future.foldl (stepTrade spec) (initState spec)) with
        totalProfitPercent :=
          calculateProfit
            (tradeOfState spec (future.foldl (stepTrade spec) (initState spec))) } := by
  simp [simulateTradeAux, hne, hres]

lemma calculateProfit_sl_original (t : TradeResult) (hdir : t.direction = .LONG)
    (h1 : t.tp1Hit = false) (h2 : t.tp2Hit = false) (h3 : t.tp3Hit = false)
    (hsl : t.slHit = true) (hat : t.slHitAt = some .ORIGINAL) :
    calculateProfit t = ((t.stopLoss - t.entryPrice) / t.entryPrice) * 100 := by
  norm_num [calculateProfit, hdir, h1, h2, h3, hsl, hat]

/-- C2: for a LONG trade with ordered levels, a candle whose low
breaches the original stop before any earlier candle reached TP1
terminates the trade as SL on the full position, with profit
`(stop - entry)/entry * 100`, a negative number — even if that same
candle's high also reaches TP1 (its high is unconstrained). -/
theorem C2_stop_checked_first (conf entry sl tp1 tp2 tp3 : ℚ) (signalTime : ℤ)
    (executionCandles : List Candle) (maxCandles : ℕ)
    (pre post : List Candle) (cStop : Candle)
    (hfut : futureCandles signalTime maxCandles executionCandles = pre ++ cStop :: post)
    (hord1 : sl < entry) (hpos : 0 < entry)
    (hquiet : ∀ c ∈ pre, sl < c.low ∧ c.high < tp1)
    (htrig : cStop.low ≤ sl) :
    (simulateTrade (longSignal conf entry sl tp1 tp2 tp3) signalTime
      executionCandles maxCandles).result = .SL ∧
    (simulateTrade (longSignal conf entry sl tp1 tp2 tp3) signalTime
      executionCandles maxCandles).slHitAt = some .ORIGINAL ∧
    (simulateTrade (longSignal conf entry sl tp1 tp2 tp3) signalTime
      executionCandles maxCandles).totalProfitPercent = ((sl - entry) / entry) * 100 ∧
    (simulateTrade (longSignal conf entry sl tp1 tp2 tp3) signalTime
      executionCandles maxCandles).totalProfitPercent < 0 := by
  have hrw : simulateTrade (longSignal conf entry sl tp1 tp2 tp3) signalTime
      executionCandles maxCandles =
      simulateTradeAux (longSpec conf entry sl tp1 tp2 tp3)
        (futureCandles signalTime maxCandles executionCandles) := rfl
  set spec := longSpec conf entry sl tp1 tp2 tp3 with hspec
  have hfold : (pre ++ cStop :: post).foldl (stepTrade spec) (initState spec) =
      slExit { initState spec with idx := pre.length } cStop := by
    rw [stepTrade_eq_stepLong spec rfl, List.foldl_append, List.foldl_cons]
    have h1 : pre.foldl (stepLong spec) (initState spec) =
        { initState spec with idx := pre.length } := by
      have h0 : initState spec = { initState spec with idx := 0 } := rfl
      rw [h0, foldl_quiet_init spec pre 0 (fun c hc => (hquiet c hc))]
      norm_num
    rw [h1, stepLong_sl_exit spec _ cStop rfl htrig]
    exact foldl_stepLong_frozen spec post _ (by simp [slExit, initState])
  rw [hrw, hfut,
    simulateTradeAux_exit spec (pre ++ cStop :: post) (by simp)
      (by rw [hfold]; simp [slExit, initState]),
    hfold]
  have hprof : calculateProfit (tradeOfState spec
      (slExit { initState spec with idx := pre.length } cStop)) =
      ((sl - entry) / entry) * 100 := by
    rw [calculateProfit_sl_original _ rfl rfl rfl rfl rfl rfl]
    rfl
  refine ⟨rfl, rfl, hprof, ?_⟩
  show calculateProfit (tradeOfState spec
    (slExit { initState spec with idx := pre.length } cStop)) < 0
  rw [hprof]
  exact mul_neg_of_neg_of_pos (div_neg_of_neg_of_pos (by linarith) hpos) (by norm_num)

/-- Witness for C2 at entry 100, stop 95, TP 105/110/115: the second
candle reaches both 94 (below the stop) and 106 (above TP1) and exits
SL at -5 percent. -/
theorem C2_stop_checked_first_witness :
    (simulateTrade (longSignal 80 100 95 105 110 115) 0
      candlesStopFirst 24).result = .SL ∧
    (simulateTrade (longSignal 80 100 95 105 110 115) 0
      candlesStopFirst 24).slHitAt = some .ORIGINAL ∧
    (simulateTrade (longSignal 80 100 95 105 110 115) 0
      candlesStopFirst 24).totalProfitPercent = ((95 - 100) / 100) * 100 ∧
    (simulateTrade (longSignal 80 100 95 105 110 115) 0
      candlesStopFirst 24).totalProfitPercent < 0 :=
  C2_stop_checked_first 80 100 95 105 110 115 0 candlesStopFirst 24
    [mkCandle 1 100 101 99 100] [] (mkCandle 2 100 106 94 95)
    rfl (by norm_num) (by norm_num)
    (by
      intro c hc
      rw [List.mem_singleton] at hc
      subst hc
      constructor <;> norm_num [mkCandle])
    (by norm_num [mkCandle])

lemma calculateProfit_breakeven (t : TradeResult) (hdir : t.direction = .LONG)
    (h1 : t.tp1Hit = true) (h2 : t.tp2Hit = false) (h3 : t.tp3Hit = false)
    (hsl : t.slHit = true) (hat : t.slHitAt = some .BREAKEVEN) :
    calculateProfit t =
      ((t.takeProfit1 - t.entryPrice) / t.entryPrice) * 100 * TP1_PERCENT := by
  simp [calculateProfit, hdir, h1, h2, h3, hsl, hat, TP1_PERCENT]

/-- C3: a LONG trade that touches TP1 (stop relocated to breakeven) and
later falls back to the entry price without having reached TP2 ends as
PARTIAL with tier BREAKEVEN; the profit is exactly the 40 percent TP1
tranche, the breakeven exit of the remaining position contributing 0;
and the tranche allocation 40/30/30 sums to at most 100 percent. -/
theorem C3_breakeven_exit (conf entry sl tp1 tp2 tp3 : ℚ) (signalTime : ℤ)
    (executionCandles : List Candle) (maxCandles : ℕ)
    (pre mid post : List Candle) (cHit cStop : Candle)
    (hfut : futureCandles signalTime maxCandles executionCandles =
      pre ++ cHit :: (mid ++ cStop :: post))
    (hquiet : ∀ c ∈ pre, sl < c.low ∧ c.high < tp1)
    (hHitLow : sl < cHit.low) (hHit1 : tp1 ≤ cHit.high) (hHit2 : cHit.high < tp2)
    (hmid : ∀ c ∈ mid, entry < c.low ∧ c.high < tp2)
    (htrig : cStop.low ≤ entry) :
    (simulateTrade (longSignal conf entry sl tp1 tp2 tp3) signalTime
      executionCandles maxCandles).result = .PARTIAL ∧
    (simulateTrade (longSignal conf entry sl tp1 tp2 tp3) signalTime
      executionCandles maxCandles).slHitAt = some .BREAKEVEN ∧
    (simulateTrade (longSignal conf entry sl tp1 tp2 tp3) signalTime
      executionCandles maxCandles).totalProfitPercent =
      ((tp1 - entry) / entry) * 100 * TP1_PERCENT ∧
    TP1_PERCENT + TP2_PERCENT + TP3_PERCENT ≤ 1 := by
  have hrw : simulateTrade (longSignal conf entry sl tp1 tp2 tp3) signalTime
      executionCandles maxCandles =
      simulateTradeAux (longSpec conf entry sl tp1 tp2 tp3)
        (futureCandles signalTime maxCandles executionCandles) := rfl
  set spec := longSpec conf entry sl tp1 tp2 tp3 with hspec
  have hfold : (pre ++ cHit :: (mid ++ cStop :: post)).foldl
      (stepTrade spec) (initState spec) =
      slExit
        { initState spec with
            tp1Hit := true
            currentSl := spec.entryPrice
            slType := .BREAKEVEN
            relocIdx := some pre.length
            idx := pre.length + 1 + mid.length } cStop := by
    rw [stepTrade_eq_stepLong spec rfl, List.foldl_append, List.foldl_cons]
    have h1 : pre.foldl (stepLong spec) (initState spec) =
        { initState spec with idx := pre.length } := by
      have h0 : initState spec = { initState spec with idx := 0 } := rfl
      rw [h0, foldl_quiet_init spec pre 0 (fun c hc => (hquiet c hc))]
      norm_num
    rw [h1, stepLong_tp1_init spec cHit pre.length hHitLow hHit1 hHit2,
      List.foldl_append, foldl_quiet_tp1 spec mid pre.length (pre.length + 1)
        (fun c hc => (hmid c hc)),
      List.foldl_cons,
      stepLong_sl_exit spec _ cStop rfl htrig]
    exact foldl_stepLong_frozen spec post _ (by simp [slExit, initState])
  rw [hrw, hfut,
    simulateTradeAux_exit spec (pre ++ cHit :: (mid ++ cStop :: post)) (by simp)
      (by rw [hfold]; simp [slExit, initState]),
    hfold]
  have hprof : calculateProfit (tradeOfState spec
      (slExit
        { initState spec with
            tp1Hit := true
            currentSl := spec.entryPrice
            slType := .BREAKEVEN
            relocIdx := some pre.length
            idx := pre.length + 1 + mid.length } cStop)) =
      ((tp1 - entry) / entry) * 100 * TP1_PERCENT := by
    rw [calculateProfit_breakeven _ rfl rfl rfl rfl rfl rfl]
    rfl
  exact ⟨rfl, rfl, hprof, by norm_num [TP1_PERCENT, TP2_PERCENT, TP3_PERCENT]⟩

/-- Witness for C3: touch 105 (TP1), drift, fall back to 100 (the
relocated stop), banking exactly the 40 percent TP1 tranche. -/
theorem C3_breakeven_exit_witness :
    (simulateTrade (longSignal 80 100 95 105 110 115) 0
      candlesBreakeven 24).result = .PARTIAL ∧
    (simulateTrade (longSignal 80 100 95 105 110 115) 0
      candlesBreakeven 24).slHitAt = some .BREAKEVEN ∧
    (simulateTrade (longSignal 80 100 95 105 110 115) 0
      candlesBreakeven 24).totalProfitPercent =
      ((105 - 100) / 100) * 100 * TP1_PERCENT ∧
    TP1_PERCENT + TP2_PERCENT + TP3_PERCENT ≤ 1 :=
  C3_breakeven_exit 80 100 95 105 110 115 0 candlesBreakeven 24
    [] [mkCandle 2 105 107 101 104] [] (mkCandle 1 100 106 99 105)
    (mkCandle 3 104 106 100 101)
    rfl
    (by intro c hc; simp at hc)
    (by norm_num [mkCandle]) (by norm_num [mkCandle]) (by norm_num [mkCandle])
    (by
      intro c hc
      rw [List.mem_singleton] at hc
      subst hc
      constructor <;> norm_num [mkCandle])
    (by norm_num [mkCandle])

lemma applyTp1L_cases (spec : TradeSpec) (c : Candle) (n : ℕ) (s : SimState) :
    applyTp1L spec c n s = s ∨
    applyTp1L spec c n s =
      { s with tp1Hit := true, currentSl := spec.entryPrice,
               slType := .BREAKEVEN, relocIdx := some n } := by
  unfold applyTp1L
  split_ifs
  · right; rfl
  · left; rfl

lemma applyTp2L_cases (spec : TradeSpec) (c : Candle) (n : ℕ) (s : SimState) :
    applyTp2L spec c n s = s ∨
    applyTp2L spec c n s =
      { s with tp2Hit := true, currentSl := spec.tp1,
               slType := .TP1, relocIdx := some n } := by
  unfold applyTp2L
  split_ifs
  · right; rfl
  · left; rfl

lemma applyTp3L_cases (spec : TradeSpec) (c : Candle) (n : ℕ) (s : SimState) :
    applyTp3L spec c n s = s ∨
    applyTp3L spec c n s =
      { s with tp3Hit := true, exitTime := some c.closeTime,
               exitPrice := some spec.tp3, result := .TP3, exitIdx := some n } := by
  unfold applyTp3L
  split_ifs
  · right; rfl
  · left; rfl

lemma stepLong_walk (spec : TradeSpec) (s : SimState) (c : Candle)
    (hres : s.result = .TIMEOUT) (hnotlow : ¬ c.low ≤ s.currentSl) :
    stepLong spec s c =
      { applyTp3L spec c s.idx (applyTp2L spec c s.idx (applyTp1L spec c s.idx s)) with
        idx := s.idx + 1 } := by
  simp [stepLong, hres, hnotlow]

lemma stepLong_timeout_inv (spec : TradeSpec) (s : SimState) (c : Candle)
    (h : s.result = .TIMEOUT → s.slHit = false ∧ s.tp3Hit = false ∧ s.exitIdx = none) :
    (stepLong spec s c).result = .TIMEOUT →
      (stepLong spec s c).slHit = false ∧ (stepLong spec s c).tp3Hit = false ∧
      (stepLong spec s c).exitIdx = none := by
  by_cases hdone : s.result ≠ .TIMEOUT
  · rw [stepLong_frozen spec s c hdone]
    exact h
  · push_neg at hdone
    obtain ⟨hsl, htp3, hex⟩ := h hdone
    by_cases hlow : c.low ≤ s.currentSl
    · rw [stepLong_sl_exit spec s c hdone hlow]
      intro habs
      rcases htp1 : s.tp1Hit <;> simp [slExit, htp1] at habs
    · rw [stepLong_walk spec s c hdone hlow]
      rcases applyTp1L_cases spec c s.idx s with h1 | h1 <;>
        rcases applyTp2L_cases spec c s.idx (applyTp1L spec c s.idx s) with h2 | h2 <;>
          rcases applyTp3L_cases spec c s.idx
            (applyTp2L spec c s.idx (applyTp1L spec c s.idx s)) with h3 | h3 <;>
        rw [h3, h2, h1] <;> simp [hdone, hsl, htp3, hex]

lemma foldl_stepLong_timeout_inv (spec : TradeSpec) (l : List Candle) (s : SimState)
    (h : s.result = .TIMEOUT → s.slHit = false ∧ s.tp3Hit = false ∧ s.exitIdx = none) :
    (l.foldl (stepLong spec) s).result = .TIMEOUT →
      (l.foldl (stepLong spec) s).slHit = false ∧
      (l.foldl (stepLong spec) s).tp3Hit = false ∧
      (l.foldl (stepLong spec) s).exitIdx = none := by
  induction l generalizing s with
  | nil => exact h
  | cons c cs ih =>
    rw [List.foldl_cons]
    exact ih (stepLong spec s c) (stepLong_timeout_inv spec s c h)

lemma simulateTradeAux_partial_open (spec : TradeSpec) (future : List Candle)
    (hne : future ≠ [])
    (hres : (future.foldl (stepTrade spec) (initState spec)).result = .TIMEOUT)
    (htp1 : (future.foldl (stepTrade spec) (initState spec)).tp1Hit = true) :
    simulateTradeAux spec future =
      { tradeOfState spec (future.foldl (stepTrade spec) (initState spec)) with
        result := .PARTIAL
        exitTime := some (future.getLast hne).closeTime
        exitPrice := some (future.getLast hne).close
        totalProfitPercent :=
          calculateProfit
            { tradeOfState spec (future.foldl (stepTrade spec) (initState spec)) with
              result := .PARTIAL
              exitTime := some (future.getLast hne).closeTime
              exitPrice := some (future.getLast hne).close } } := by
  simp [simulateTradeAux, hne, hres, htp1, tradeOfState]

lemma calculateProfit_partial_no_sl (t : TradeResult) (hdir : t.direction = .LONG)
    (h1 : t.tp1Hit = true) (h3 : t.tp3Hit = false) (hsl : t.slHit = false) :
    calculateProfit t =
      ((t.takeProfit1 - t.entryPrice) / t.entryPrice) * 100 * TP1_PERCENT +
      (if t.tp2Hit = true then
        ((t.takeProfit2 - t.entryPrice) / t.entryPrice) * 100 * TP2_PERCENT
      else 0) := by
  rcases h2 : t.tp2Hit <;> simp [calculateProfit, hdir, h1, h2, h3, hsl]

/-- C9: when TP1 was banked and the candles run out with no stop breach
and no TP3, the trade closes as PARTIAL at the last candle's close, but
the recorded profit is only the banked TP tranches — 40 percent at TP1
plus, when TP2 was also hit, 30 percent at TP2 — independent of the
recorded last-close exit price. -/
theorem C9_partial_keeps_banked_tranches (conf entry sl tp1 tp2 tp3 : ℚ)
    (signalTime : ℤ) (executionCandles : List Candle) (maxCandles : ℕ)
    (f : Candle) (fs : List Candle)
    (hfut : futureCandles signalTime maxCandles executionCandles = f :: fs)
    (hres : ((f :: fs).foldl (stepTrade (longSpec conf entry sl tp1 tp2 tp3))
        (initState (longSpec conf entry sl tp1 tp2 tp3))).result = .TIMEOUT)
    (htp1 : ((f :: fs).foldl (stepTrade (longSpec conf entry sl tp1 tp2 tp3))
        (initState (longSpec conf entry sl tp1 tp2 tp3))).tp1Hit = true) :
    (simulateTrade (longSignal conf entry sl tp1 tp2 tp3) signalTime
      executionCandles maxCandles).result = .PARTIAL ∧
    (simulateTrade (longSignal conf entry sl tp1 tp2 tp3) signalTime
      executionCandles maxCandles).exitPrice =
      some ((f :: fs).getLast (List.cons_ne_nil f fs)).close ∧
    (simulateTrade (longSignal conf entry sl tp1 tp2 tp3) signalTime
      executionCandles maxCandles).totalProfitPercent =
      ((tp1 - entry) / entry) * 100 * TP1_PERCENT +
      (if ((f :: fs).foldl (stepTrade (longSpec conf entry sl tp1 tp2 tp3))
          (initState (longSpec conf entry sl tp1 tp2 tp3))).tp2Hit = true then
        ((tp2 - entry) / entry) * 100 * TP2_PERCENT
      else 0) := by
  have hrw : simulateTrade (longSignal conf entry sl tp1 tp2 tp3) signalTime
      executionCandles maxCandles =
      simulateTradeAux (longSpec conf entry sl tp1 tp2 tp3)
        (futureCandles signalTime maxCandles executionCandles) := rfl
  set spec := longSpec conf entry sl tp1 tp2 tp3 with hspec
  have hinv := foldl_stepLong_timeout_inv spec (f :: fs) (initState spec)
    (fun _ => ⟨rfl, rfl, rfl⟩)
  rw [stepTrade_eq_stepLong spec rfl] at hres htp1
  obtain ⟨hsl, htp3, -⟩ := hinv hres
  rw [hrw, hfut,
    simulateTradeAux_partial_open spec (f :: fs) (List.cons_ne_nil f fs)
      (by rw [stepTrade_eq_stepLong spec rfl]; exact hres)
      (by rw [stepTrade_eq_stepLong spec rfl]; exact htp1)]
  rw [stepTrade_eq_stepLong spec rfl]
  refine ⟨rfl, rfl, ?_⟩
  show calculateProfit
    { tradeOfState spec ((f :: fs).foldl (stepLong spec) (initState spec)) with
      result := .PARTIAL
      exitTime := some ((f :: fs).getLast (List.cons_ne_nil f fs)).closeTime
      exitPrice := some ((f :: fs).getLast (List.cons_ne_nil f fs)).close } = _
  rw [calculateProfit_partial_no_sl _ rfl htp1 htp3 hsl]
  rfl

lemma demo_fold_tp1Open :
    candlesTp1Open.foldl (stepLong (longSpec 80 100 95 105 110 115))
      (initState (longSpec 80 100 95 105 110 115)) =
    { initState (longSpec 80 100 95 105 110 115) with
        tp1Hit := true
        currentSl := (longSpec 80 100 95 105 110 115).entryPrice
        slType := .BREAKEVEN
        relocIdx := some 0
        idx := 2 } := by
  show ([mkCandle 1 100 106 99 105, mkCandle 2 105 107 101 104]).foldl _ _ = _
  rw [List.foldl_cons,
    show initState (longSpec 80 100 95 105 110 115) =
      { initState (longSpec 80 100 95 105 110 115) with idx := 0 } from rfl,
    stepLong_tp1_init (longSpec 80 100 95 105 110 115) (mkCandle 1 100 106 99 105) 0
      (by norm_num [longSpec, mkCandle]) (by norm_num [longSpec, mkCandle])
      (by norm_num [longSpec, mkCandle]),
    List.foldl_cons,
    stepLong_quiet_tp1 (longSpec 80 100 95 105 110 115) (mkCandle 2 105 107 101 104)
      0 (0 + 1) (by norm_num [longSpec, mkCandle]) (by norm_num [longSpec, mkCandle]),
    List.foldl_nil]

/-- Witness for C9: TP1 touched on the first candle, second candle
quiet, walk ends with the trade still open. -/
theorem C9_partial_keeps_banked_tranches_witness :
    (simulateTrade (longSignal 80 100 95 105 110 115) 0
      candlesTp1Open 24).result = .PARTIAL ∧
    (simulateTrade (longSignal 80 100 95 105 110 115) 0
      candlesTp1Open 24).exitPrice =
      some (((mkCandle 1 100 106 99 105) :: [mkCandle 2 105 107 101 104]).getLast
        (List.cons_ne_nil _ _)).close ∧
    (simulateTrade (longSignal 80 100 95 105 110 115) 0
      candlesTp1Open 24).totalProfitPercent =
      ((105 - 100) / 100) * 100 * TP1_PERCENT +
      (if (((mkCandle 1 100 106 99 105) :: [mkCandle 2 105 107 101 104]).foldl
          (stepTrade (longSpec 80 100 95 105 110 115))
          (initState (longSpec 80 100 95 105 110 115))).tp2Hit = true then
        ((110 - 100) / 100) * 100 * TP2_PERCENT
      else 0) :=
  C9_partial_keeps_banked_tranches 80 100 95 105 110 115 0 candlesTp1Open 24
    (mkCandle 1 100 106 99 105) [mkCandle 2 105 107 101 104]
    rfl
    (by
      rw [stepTrade_eq_stepLong _ rfl,
        show ((mkCandle 1 100 106 99 105) :: [mkCandle 2 105 107 101 104]) =
          candlesTp1Open from rfl,
        demo_fold_tp1Open]
      rfl)
    (by
      rw [stepTrade_eq_stepLong _ rfl,
        show ((mkCandle 1 100 106 99 105) :: [mkCandle 2 105 107 101 104]) =
          candlesTp1Open from rfl,
        demo_fold_tp1Open])

lemma walk_reloc (spec : TradeSpec) (c : Candle) (n : ℕ) (s : SimState) :
    (applyTp3L spec c n (applyTp2L spec c n (applyTp1L spec c n s))).slHit = s.slHit ∧
    (applyTp3L spec c n (applyTp2L spec c n (applyTp1L spec c n s))).slHitAt = s.slHitAt ∧
    ((applyTp3L spec c n (applyTp2L spec c n (applyTp1L spec c n s))).result = .TIMEOUT →
      (applyTp3L spec c n (applyTp2L spec c n (applyTp1L spec c n s))).result = s.result ∧
      (applyTp3L spec c n (applyTp2L spec c n (applyTp1L spec c n s))).exitIdx = s.exitIdx) ∧
    ((applyTp3L spec c n (applyTp2L spec c n (applyTp1L spec c n s))).slType = s.slType ∧
      (applyTp3L spec c n (applyTp2L spec c n (applyTp1L spec c n s))).relocIdx = s.relocIdx ∨
     (applyTp3L spec c n (applyTp2L spec c n (applyTp1L spec c n s))).slType ≠ .ORIGINAL ∧
      (applyTp3L spec c n (applyTp2L spec c n (applyTp1L spec c n s))).relocIdx = some n) := by
  rcases applyTp1L_cases spec c n s with e1 | e1 <;>
    rcases applyTp2L_cases spec c n (applyTp1L spec c n s) with e2 | e2 <;>
      rcases applyTp3L_cases spec c n
        (applyTp2L spec c n (applyTp1L spec c n s)) with e3 | e3 <;>
    rw [e3, e2, e1] <;> simp

lemma stepLong_reloc_inv (spec : TradeSpec) (s : SimState) (c : Candle)
    (h : RelocInv s) : RelocInv (stepLong spec s c) := by
  obtain ⟨h1, h2⟩ := h
  by_cases hdone : s.result ≠ .TIMEOUT
  · rw [stepLong_frozen spec s c hdone]
    exact ⟨h1, h2⟩
  · push_neg at hdone
    obtain ⟨hsl, hex, hreloc⟩ := h1 hdone
    by_cases hlow : c.low ≤ s.currentSl
    · rw [stepLong_sl_exit spec s c hdone hlow]
      constructor
      · intro habs
        rcases htp1 : s.tp1Hit <;> simp [slExit, htp1] at habs
      · intro _
        refine ⟨s.idx, by simp [slExit], by simp [slExit], ?_⟩
        intro t ht htne
        have hts : t = s.slType := by
          simp [slExit] at ht
          exact ht.symm
        subst hts
        obtain ⟨i, hi, hilt⟩ := hreloc htne
        exact ⟨i, by simp [slExit, hi], hilt⟩
    · rw [stepLong_walk spec s c hdone hlow]
      obtain ⟨wsl, wat, wres, wdisj⟩ := walk_reloc spec c s.idx s
      constructor
      · intro hto
        have hto2 : (applyTp3L spec c s.idx
            (applyTp2L spec c s.idx (applyTp1L spec c s.idx s))).result = .TIMEOUT := hto
        refine ⟨by simp [wsl, hsl], by simp [(wres hto2).2, hex], ?_⟩
        intro hty
        have hty2 : (applyTp3L spec c s.idx
            (applyTp2L spec c s.idx (applyTp1L spec c s.idx s))).slType ≠ .ORIGINAL := hty
        rcases wdisj with ⟨ht, hr⟩ | ⟨ht, hr⟩
        · rw [ht] at hty2
          obtain ⟨i, hi, hilt⟩ := hreloc hty2
          exact ⟨i, by simp [hr, hi], by simp; omega⟩
        · exact ⟨s.idx, by simp [hr], by simp⟩
      · intro habs
        have : s.slHit = true := by
          rw [← wsl]
          exact habs
        rw [this] at hsl
        exact absurd hsl (by simp)

lemma initState_reloc_inv (spec : TradeSpec) : RelocInv (initState spec) := by
  constructor
  · intro _
    refine ⟨rfl, rfl, ?_⟩
    intro habs
    exact absurd rfl habs
  · intro habs
    simp [initState] at habs

lemma foldl_stepLong_reloc_inv (spec : TradeSpec) (l : List Candle) (s : SimState)
    (h : RelocInv s) : RelocInv (l.foldl (stepLong spec) s) := by
  induction l generalizing s with
  | nil => exact h
  | cons c cs ih =>
    rw [List.foldl_cons]
    exact ih (stepLong spec s c) (stepLong_reloc_inv spec s c h)

lemma stepShort_frozen (spec : TradeSpec) (s : SimState) (c : Candle)
    (h : s.result ≠ .TIMEOUT) : stepShort spec s c = s := by
  simp [stepShort, h]

lemma stepShort_sl_exit (spec : TradeSpec) (s : SimState) (c : Candle)
    (hres : s.result = .TIMEOUT) (h : s.currentSl ≤ c.high) :
    stepShort spec s c = slExit s c := by
  simp [stepShort, hres, h]

lemma stepShort_walk (spec : TradeSpec) (s : SimState) (c : Candle)
    (hres : s.result = .TIMEOUT) (hnothigh : ¬ s.currentSl ≤ c.high) :
    stepShort spec s c =
      { applyTp3S spec c s.idx (applyTp2S spec c s.idx (applyTp1S spec c s.idx s)) with
        idx := s.idx + 1 } := by
  simp [stepShort, hres, hnothigh]

lemma applyTp1S_cases (spec : TradeSpec) (c : Candle) (n : ℕ) (s : SimState) :
    applyTp1S spec c n s = s ∨
    applyTp1S spec c n s =
      { s with tp1Hit := true, currentSl := spec.entryPrice,
               slType := .BREAKEVEN, relocIdx := some n } := by
  unfold applyTp1S
  split_ifs
  · right; rfl
  · left; rfl

lemma applyTp2S_cases (spec : TradeSpec) (c : Candle) (n : ℕ) (s : SimState) :
    applyTp2S spec c n s = s ∨
    applyTp2S spec c n s =
      { s with tp2Hit := true, currentSl := spec.tp1,
               slType := .TP1, relocIdx := some n } := by
  unfold applyTp2S
  split_ifs
  · right; rfl
  · left; rfl

lemma applyTp3S_cases (spec : TradeSpec) (c : Candle) (n : ℕ) (s : SimState) :
    applyTp3S spec c n s = s ∨
    applyTp3S spec c n s =
      { s with tp3Hit := true, exitTime := some c.closeTime,
               exitPrice := some spec.tp3, result := .TP3, exitIdx := some n } := by
  unfold applyTp3S
  split_ifs
  · right; rfl
  · left; rfl

lemma walk_reloc_short (spec : TradeSpec) (c : Candle) (n : ℕ) (s : SimState) :
    (applyTp3S spec c n (applyTp2S spec c n (applyTp1S spec c n s))).slHit = s.slHit ∧
    (applyTp3S spec c n (applyTp2S spec c n (applyTp1S spec c n s))).slHitAt = s.slHitAt ∧
    ((applyTp3S spec c n (applyTp2S spec c n (applyTp1S spec c n s))).result = .TIMEOUT →
      (applyTp3S spec c n (applyTp2S spec c n (applyTp1S spec c n s))).result = s.result ∧
      (applyTp3S spec c n (applyTp2S spec c n (applyTp1S spec c n s))).exitIdx = s.exitIdx) ∧
    ((applyTp3S spec c n (applyTp2S spec c n (applyTp1S spec c n s))).slType = s.slType ∧
      (applyTp3S spec c n (applyTp2S spec c n (applyTp1S spec c n s))).relocIdx = s.relocIdx ∨
     (applyTp3S spec c n (applyTp2S spec c n (applyTp1S spec c n s))).slType ≠ .ORIGINAL ∧
      (applyTp3S spec c n (applyTp2S spec c n (applyTp1S spec c n s))).relocIdx = some n) := by
  rcases applyTp1S_cases spec c n s with e1 | e1 <;>
    rcases applyTp2S_cases spec c n (applyTp1S spec c n s) with e2 | e2 <;>
      rcases applyTp3S_cases spec c n
        (applyTp2S spec c n (applyTp1S spec c n s)) with e3 | e3 <;>
    rw [e3, e2, e1] <;> simp

lemma stepShort_reloc_inv (spec : TradeSpec) (s : SimState) (c : Candle)
    (h : RelocInv s) : RelocInv (stepShort spec s c) := by
  obtain ⟨h1, h2⟩ := h
  by_cases hdone : s.result ≠ .TIMEOUT
  · rw [stepShort_frozen spec s c hdone]
    exact ⟨h1, h2⟩
  · push_neg at hdone
    obtain ⟨hsl, hex, hreloc⟩ := h1 hdone
    by_cases hhigh : s.currentSl ≤ c.high
    · rw [stepShort_sl_exit spec s c hdone hhigh]
      constructor
      · intro habs
        rcases htp1 : s.tp1Hit <;> simp [slExit, htp1] at habs
      · intro _
        refine ⟨s.idx, by simp [slExit], by simp [slExit], ?_⟩
        intro t ht htne
        have hts : t = s.slType := by
          simp [slExit] at ht
          exact ht.symm
        subst hts
        obtain ⟨i, hi, hilt⟩ := hreloc htne
        exact ⟨i, by simp [slExit, hi], hilt⟩
    · rw [stepShort_walk spec s c hdone hhigh]
      obtain ⟨wsl, wat, wres, wdisj⟩ := walk_reloc_short spec c s.idx s
      constructor
      · intro hto
        have hto2 : (applyTp3S spec c s.idx
            (applyTp2S spec c s.idx (applyTp1S spec c s.idx s))).result = .TIMEOUT := hto
        refine ⟨by simp [wsl, hsl], by simp [(wres hto2).2, hex], ?_⟩
        intro hty
        have hty2 : (applyTp3S spec c s.idx
            (applyTp2S spec c s.idx (applyTp1S spec c s.idx s))).slType ≠ .ORIGINAL := hty
        rcases wdisj with ⟨ht, hr⟩ | ⟨ht, hr⟩
        · rw [ht] at hty2
          obtain ⟨i, hi, hilt⟩ := hreloc hty2
          exact ⟨i, by simp [hr, hi], by simp; omega⟩
        · exact ⟨s.idx, by simp [hr], by simp⟩
      · intro habs
        have : s.slHit = true := by
          rw [← wsl]
          exact habs
        rw [this] at hsl
        exact absurd hsl (by simp)

lemma stepTrade_reloc_inv (spec : TradeSpec) (s : SimState) (c : Candle)
    (h : RelocInv s) : RelocInv (stepTrade spec s c) := by
  by_cases hdir : spec.direction = .LONG
  · rw [show stepTrade spec s c = stepLong spec s c by simp [stepTrade, hdir]]
    exact stepLong_reloc_inv spec s c h
  · rw [show stepTrade spec s c = stepShort spec s c by simp [stepTrade, hdir]]
    exact stepShort_reloc_inv spec s c h

lemma foldl_stepTrade_reloc_inv (spec : TradeSpec) (l : List Candle) (s : SimState)
    (h : RelocInv s) : RelocInv (l.foldl (stepTrade spec) s) := by
  induction l generalizing s with
  | nil => exact h
  | cons c cs ih =>
    rw [List.foldl_cons]
    exact ih (stepTrade spec s c) (stepTrade_reloc_inv spec s c h)

/-- C10: in both branches of `simulate_trade`'s candle loop the stop
level is compared only against the state entering a candle.  First
part (LONG branch): a single candle can hit TP1, TP2 and TP3 in
sequence and exit as TP3 even though its low crosses the entry price —
the freshly relocated breakeven stop is never tested on that same
candle.  Second part (SHORT branch): symmetrically, a candle whose low
sweeps all three targets exits as TP3 even though its high crosses the
entry price.  Third part: over any walk of either branch, an exit with
a BREAKEVEN or TP1 stop tier happened on a candle strictly later than
the one that relocated the stop. -/
theorem C10_stop_relocation_deferred :
    (∀ (spec : TradeSpec) (s : SimState) (c : Candle),
      spec.direction = .LONG →
      s.result = .TIMEOUT → s.tp1Hit = false → s.tp2Hit = false → s.tp3Hit = false →
      s.currentSl < c.low → c.low ≤ spec.entryPrice →
      spec.tp1 ≤ c.high → spec.tp2 ≤ c.high → spec.tp3 ≤ c.high →
      (stepTrade spec s c).result = .TP3 ∧
      (stepTrade spec s c).tp1Hit = true ∧
      (stepTrade spec s c).tp2Hit = true ∧
      (stepTrade spec s c).tp3Hit = true ∧
      (stepTrade spec s c).exitPrice = some spec.tp3) ∧
    (∀ (spec : TradeSpec) (s : SimState) (c : Candle),
      spec.direction ≠ .LONG →
      s.result = .TIMEOUT → s.tp1Hit = false → s.tp2Hit = false → s.tp3Hit = false →
      c.high < s.currentSl → spec.entryPrice ≤ c.high →
      c.low ≤ spec.tp1 → c.low ≤ spec.tp2 → c.low ≤ spec.tp3 →
      (stepTrade spec s c).result = .TP3 ∧
      (stepTrade spec s c).tp1Hit = true ∧
      (stepTrade spec s c).tp2Hit = true ∧
      (stepTrade spec s c).tp3Hit = true ∧
      (stepTrade spec s c).exitPrice = some spec.tp3) ∧
    (∀ (spec : TradeSpec) (candles : List Candle),
      (candles.foldl (stepTrade spec) (initState spec)).slHit = true →
      ((candles.foldl (stepTrade spec) (initState spec)).slHitAt = some .BREAKEVEN ∨
        (candles.foldl (stepTrade spec) (initState spec)).slHitAt = some .TP1) →
      ∃ i j, (candles.foldl (stepTrade spec) (initState spec)).relocIdx = some i ∧
        (candles.foldl (stepTrade spec) (initState spec)).exitIdx = some j ∧ i < j) := by
  refine ⟨?_, ?_, ?_⟩
  · intro spec s c hdir hres h1 h2 h3 hlow _hcross ht1 ht2 ht3
    rw [show stepTrade spec s c = stepLong spec s c by simp [stepTrade, hdir],
      stepLong_walk spec s c hres (not_le.mpr hlow)]
    simp [applyTp1L, applyTp2L, applyTp3L, h1, h2, h3, ht1, ht2, ht3]
  · intro spec s c hdir hres h1 h2 h3 hhigh _hcross ht1 ht2 ht3
    rw [show stepTrade spec s c = stepShort spec s c by simp [stepTrade, hdir],
      stepShort_walk spec s c hres (not_le.mpr hhigh)]
    simp [applyTp1S, applyTp2S, applyTp3S, h1, h2, h3, ht1, ht2, ht3]
  · intro spec candles hsl htier
    obtain ⟨-, h2⟩ := foldl_stepTrade_reloc_inv spec candles (initState spec)
      (initState_reloc_inv spec)
    obtain ⟨j, hj, -, hrest⟩ := h2 hsl
    rcases htier with ht | ht
    · obtain ⟨i, hi, hij⟩ := hrest _ ht (by simp)
      exact ⟨i, j, hi, hj, hij⟩
    · obtain ⟨i, hi, hij⟩ := hrest _ ht (by simp)
      exact ⟨i, j, hi, hj, hij⟩

lemma demo_fold_breakeven :
    candlesBreakeven.foldl (stepLong (longSpec 80 100 95 105 110 115))
      (initState (longSpec 80 100 95 105 110 115)) =
    slExit
      { initState (longSpec 80 100 95 105 110 115) with
          tp1Hit := true
          currentSl := (longSpec 80 100 95 105 110 115).entryPrice
          slType := .BREAKEVEN
          relocIdx := some 0
          idx := 0 + 1 + 1 } (mkCandle 3 104 106 100 101) := by
  show ([mkCandle 1 100 106 99 105, mkCandle 2 105 107 101 104,
    mkCandle 3 104 106 100 101]).foldl _ _ = _
  rw [List.foldl_cons,
    show initState (longSpec 80 100 95 105 110 115) =
      { initState (longSpec 80 100 95 105 110 115) with idx := 0 } from rfl,
    stepLong_tp1_init (longSpec 80 100 95 105 110 115) (mkCandle 1 100 106 99 105) 0
      (by norm_num [longSpec, mkCandle]) (by norm_num [longSpec, mkCandle])
      (by norm_num [longSpec, mkCandle]),
    List.foldl_cons,
    stepLong_quiet_tp1 (longSpec 80 100 95 105 110 115) (mkCandle 2 105 107 101 104)
      0 (0 + 1) (by norm_num [longSpec, mkCandle]) (by norm_num [longSpec, mkCandle]),
    List.foldl_cons,
    stepLong_sl_exit (longSpec 80 100 95 105 110 115) _ (mkCandle 3 104 106 100 101)
      rfl (by norm_num [longSpec, mkCandle]),
    List.foldl_nil]

/-- Witness for C10: the sweeping candle 96-116 exits a LONG trade at
TP3 from a fresh position even though its low is below the entry; the
candle 84-104 does the same for a SHORT trade even though its high is
above the entry; and the breakeven scenario records the relocation
strictly before the exit. -/
theorem C10_stop_relocation_deferred_witness :
    ((stepTrade (longSpec 80 100 95 105 110 115)
        (initState (longSpec 80 100 95 105 110 115)) candleSweep).result = .TP3 ∧
      (stepTrade (longSpec 80 100 95 105 110 115)
        (initState (longSpec 80 100 95 105 110 115)) candleSweep).tp1Hit = true ∧
      (stepTrade (longSpec 80 100 95 105 110 115)
        (initState (longSpec 80 100 95 105 110 115)) candleSweep).tp2Hit = true ∧
      (stepTrade (longSpec 80 100 95 105 110 115)
        (initState (longSpec 80 100 95 105 110 115)) candleSweep).tp3Hit = true ∧
      (stepTrade (longSpec 80 100 95 105 110 115)
        (initState (longSpec 80 100 95 105 110 115)) candleSweep).exitPrice =
        some (longSpec 80 100 95 105 110 115).tp3) ∧
    ((stepTrade shortSpecDemo (initState shortSpecDemo) candleSweepShort).result = .TP3 ∧
      (stepTrade shortSpecDemo (initState shortSpecDemo) candleSweepShort).tp1Hit = true ∧
      (stepTrade shortSpecDemo (initState shortSpecDemo) candleSweepShort).tp2Hit = true ∧
      (stepTrade shortSpecDemo (initState shortSpecDemo) candleSweepShort).tp3Hit = true ∧
      (stepTrade shortSpecDemo (initState shortSpecDemo) candleSweepShort).exitPrice =
        some shortSpecDemo.tp3) ∧
    (∃ i j, (candlesBreakeven.foldl (stepTrade (longSpec 80 100 95 105 110 115))
        (initState (longSpec 80 100 95 105 110 115))).relocIdx = some i ∧
      (candlesBreakeven.foldl (stepTrade (longSpec 80 100 95 105 110 115))
        (initState (longSpec 80 100 95 105 110 115))).exitIdx = some j ∧ i < j) :=
  ⟨C10_stop_relocation_deferred.1 (longSpec 80 100 95 105 110 115)
      (initState (longSpec 80 100 95 105 110 115)) candleSweep
      rfl rfl rfl rfl rfl
      (by norm_num [initState, longSpec, candleSweep, mkCandle])
      (by norm_num [longSpec, candleSweep, mkCandle])
      (by norm_num [longSpec, candleSweep, mkCandle])
      (by norm_num [longSpec, candleSweep, mkCandle])
      (by norm_num [longSpec, candleSweep, mkCandle]),
   C10_stop_relocation_deferred.2.1 shortSpecDemo
      (initState shortSpecDemo) candleSweepShort
      (by simp [shortSpecDemo]) rfl rfl rfl rfl
      (by norm_num [initState, shortSpecDemo, candleSweepShort, mkCandle])
      (by norm_num [shortSpecDemo, candleSweepShort, mkCandle])
      (by norm_num [shortSpecDemo, candleSweepShort, mkCandle])
      (by norm_num [shortSpecDemo, candleSweepShort, mkCandle])
      (by norm_num [shortSpecDemo, candleSweepShort, mkCandle]),
   C10_stop_relocation_deferred.2.2 (longSpec 80 100 95 105 110 115) candlesBreakeven
      (by rw [stepTrade_eq_stepLong _ rfl, demo_fold_breakeven]; rfl)
      (by rw [stepTrade_eq_stepLong _ rfl, demo_fold_breakeven]; left; rfl)⟩

lemma roundTo4_nine_elevenths : roundTo4 (9/11 : ℚ) = 4091/5000 := by
  rw [roundTo4, show ((9:ℚ)/11) * 10000 = 90000/11 by norm_num, round_eq]
  rw [show (⌊(90000/11 : ℚ) + 1/2⌋ : ℤ) = 8182 by
    rw [Int.floor_eq_iff] <;> norm_num]
  norm_num

/-- C8: the returned suggested weight is the shrunk clamped score
ROUNDED to 4 decimal places, so for 30 or more trades it differs from
the exact clamped raw score: at profit factor 1 and win rate 44.55 the
raw score is exactly 9/11 = 0.8181..., but the function returns
0.8182. -/
theorem C8_counterexample :
    (0:ℚ) ≤ 9/10 ∧ (9/10 : ℚ) * (9/10) = (4455/100) / 55 ∧
    clampedScore 1 (4455/100) (9/10) = 9/11 ∧
    calculatePerformanceWeight 1 (4455/100) (9/10) 30 ≠
      clampedScore 1 (4455/100) (9/10) := by
  have hraw : rawScore 1 (4455/100) (9/10) = 9/11 := by
    norm_num [rawScore]
  have hcl : clampedScore 1 (4455/100) (9/10) = 9/11 := by
    rw [clampedScore, hraw]
    rw [min_eq_right (by norm_num), max_eq_right (by norm_num)]
  have halpha : shrinkAlpha 30 = 1 := by
    rw [shrinkAlpha, if_pos (by norm_num)]
    rw [min_eq_left (by norm_num)]
  have hval : calculatePerformanceWeight 1 (4455/100) (9/10) 30 = 4091/5000 := by
    rw [calculatePerformanceWeight, halpha, hcl,
      show (1 + 1 * ((9:ℚ)/11 - 1)) = 9/11 by ring, roundTo4_nine_elevenths]
  refine ⟨by norm_num, by norm_num, hcl, ?_⟩
  rw [hval, hcl]
  norm_num

/-- C8 (amended): the raw profit-factor/win-rate score is clamped to
[0.3, 2.5]; the returned weight is `round(1 + min(1, total/30) *
(clamped - 1), 4)`; for total = 0 it is exactly 1.0; for total ≥ 30 it
is the clamped raw score rounded to 4 decimal places. -/
theorem C8_weight_shrink (pf winRate sqrtVal : ℚ) (total : ℕ) :
    (3/10 ≤ clampedScore pf winRate sqrtVal ∧
      clampedScore pf winRate sqrtVal ≤ 5/2) ∧
    calculatePerformanceWeight pf winRate sqrtVal total =
      roundTo4 (1 + shrinkAlpha total * (clampedScore pf winRate sqrtVal - 1)) ∧
    (total = 0 → calculatePerformanceWeight pf winRate sqrtVal total = 1) ∧
    (30 ≤ total → calculatePerformanceWeight pf winRate sqrtVal total =
      roundTo4 (clampedScore pf winRate sqrtVal)) := by
  refine ⟨⟨?_, ?_⟩, rfl, ?_, ?_⟩
  · rw [clampedScore, le_max_iff]
    left
    norm_num
  · rw [clampedScore, max_le_iff]
    refine ⟨by norm_num, ?_⟩
    rw [min_le_iff]
    left
    norm_num
  · intro h
    subst h
    rw [calculatePerformanceWeight, show shrinkAlpha 0 = 0 by norm_num [shrinkAlpha],
      show (1 + 0 * (clampedScore pf winRate sqrtVal - 1) : ℚ) = 1 by ring,
      roundTo4, show ((1:ℚ) * 10000) = 10000 by norm_num, round_eq,
      show (⌊(10000:ℚ) + 1/2⌋ : ℤ) = 10000 by rw [Int.floor_eq_iff] <;> norm_num]
    norm_num
  · intro h
    have halpha : shrinkAlpha total = 1 := by
      rw [shrinkAlpha, if_pos (by omega), min_eq_left]
      rw [le_div_iff (by norm_num)]
      rw [one_mul]
      exact_mod_cast h
    rw [calculatePerformanceWeight, halpha,
      show (1 + 1 * (clampedScore pf winRate sqrtVal - 1) : ℚ) =
        clampedScore pf winRate sqrtVal by ring]

/-- Witness for C8_weight_shrink at pf 0, win rate 0, 30 signals. -/
theorem C8_weight_shrink_witness :
    (3/10 ≤ clampedScore 0 0 0 ∧ clampedScore 0 0 0 ≤ 5/2) ∧
    calculatePerformanceWeight 0 0 0 0 = 1 ∧
    calculatePerformanceWeight 0 0 0 30 = roundTo4 (clampedScore 0 0 0) :=
  ⟨(C8_weight_shrink 0 0 0 30).1,
   (C8_weight_shrink 0 0 0 0).2.2.1 rfl,
   (C8_weight_shrink 0 0 0 30).2.2.2 (by norm_num)⟩

lemma foldl_max_spec (g : Candle → ℚ) (xs : List Candle) (a : ℚ) :
    (xs.foldl (fun m x => max m (g x)) a = a ∨
      ∃ x ∈ xs, xs.foldl (fun m x => max m (g x)) a = g x) ∧
    a ≤ xs.foldl (fun m x => max m (g x)) a ∧
    ∀ x ∈ xs, g x ≤ xs.foldl (fun m x => max m (g x)) a := by
  induction xs generalizing a with
  | nil => simp
  | cons y ys ih =>
    obtain ⟨hmem, hle, hub⟩ := ih (max a (g y))
    rw [List.foldl_cons]
    refine ⟨?_, le_trans (le_max_left _ _) hle, ?_⟩
    · rcases hmem with h | ⟨x, hx, hfx⟩
      · rcases max_choice a (g y) with hm | hm
        · left
          rw [h, hm]
        · right
          exact ⟨y, List.mem_cons_self _ _, by rw [h, hm]⟩
      · right
        exact ⟨x, List.mem_cons_of_mem _ hx, hfx⟩
    · intro x hx
      rcases List.mem_cons.mp hx with rfl | hx2
      · exact le_trans (le_max_right _ _) hle
      · exact hub x hx2

lemma foldl_min_spec (g : Candle → ℚ) (xs : List Candle) (a : ℚ) :
    (xs.foldl (fun m x => min m (g x)) a = a ∨
      ∃ x ∈ xs, xs.foldl (fun m x => min m (g x)) a = g x) ∧
    xs.foldl (fun m x => min m (g x)) a ≤ a ∧
    ∀ x ∈ xs, xs.foldl (fun m x => min m (g x)) a ≤ g x := by
  induction xs generalizing a with
  | nil => simp
  | cons y ys ih =>
    obtain ⟨hmem, hle, hlb⟩ := ih (min a (g y))
    rw [List.foldl_cons]
    refine ⟨?_, le_trans hle (min_le_left _ _), ?_⟩
    · rcases hmem with h | ⟨x, hx, hfx⟩
      · rcases min_choice a (g y) with hm | hm
        · left
          rw [h, hm]
        · right
          exact ⟨y, List.mem_cons_self _ _, by rw [h, hm]⟩
      · right
        exact ⟨x, List.mem_cons_of_mem _ hx, hfx⟩
    · intro x hx
      rcases List.mem_cons.mp hx with rfl | hx2
      · exact le_trans hle (min_le_right _ _)
      · exact hlb x hx2

lemma mergeChunkL_spec (chunk : List Candle) (hne : chunk ≠ []) :
    (mergeChunkL chunk).openTime = chunk.headI.openTime ∧
    (mergeChunkL chunk).openPrice = chunk.headI.openPrice ∧
    (mergeChunkL chunk).close = (chunk.getLastD default).close ∧
    (mergeChunkL chunk).high ∈ chunk.map Candle.high ∧
    (∀ x ∈ chunk, x.high ≤ (mergeChunkL chunk).high) ∧
    (mergeChunkL chunk).low ∈ chunk.map Candle.low ∧
    (∀ x ∈ chunk, (mergeChunkL chunk).low ≤ x.low) ∧
    (mergeChunkL chunk).volume = (chunk.map Candle.volume).sum := by
  match chunk with
  | [] => exact absurd rfl hne
  | c :: cs =>
    obtain ⟨hmaxmem, hmaxle, hmaxub⟩ := foldl_max_spec Candle.high cs c.high
    obtain ⟨hminmem, hminle, hminlb⟩ := foldl_min_spec Candle.low cs c.low
    refine ⟨rfl, rfl, ?_, ?_, ?_, ?_, ?_, ?_⟩
    · show (cs.getLastD c).close = ((c :: cs).getLastD default).close
      rw [List.getLastD_cons]
    · show cs.foldl (fun m x => max m x.high) c.high ∈ _
      rcases hmaxmem with h | ⟨x, hx, hfx⟩
      · rw [h, List.map_cons]
        exact List.mem_cons_self _ _
      · rw [hfx, List.map_cons]
        exact List.mem_cons_of_mem _ (List.mem_map_of_mem Candle.high hx)
    · intro x hx
      rcases List.mem_cons.mp hx with rfl | hx2
      · exact hmaxle
      · exact hmaxub x hx2
    · show cs.foldl (fun m x => min m x.low) c.low ∈ _
      rcases hminmem with h | ⟨x, hx, hfx⟩
      · rw [h, List.map_cons]
        exact List.mem_cons_self _ _
      · rw [hfx, List.map_cons]
        exact List.mem_cons_of_mem _ (List.mem_map_of_mem Candle.low hx)
    · intro x hx
      rcases List.mem_cons.mp hx with rfl | hx2
      · exact hminle
      · exact hminlb x hx2
    · show c.volume + (cs.map Candle.volume).sum = _
      rw [List.map_cons, List.sum_cons]

/-- C7: aggregating N execution candles into a target timeframe whose
minute ratio is r ≥ 1 yields exactly N / r (floor) candles — the
incomplete trailing group is dropped — and the i-th output summarizes
the i-th complete group of r source candles: open time and open price
from the first candle, close from the last, high the maximum, low the
minimum and volume the sum over the group. -/
theorem C7_candle_aggregation (sourceMinutes targetMinutes : ℕ) (l : List Candle)
    (hr : 1 ≤ targetMinutes / sourceMinutes) (hl : l ≠ []) :
    (aggregateCandles sourceMinutes targetMinutes l).length =
      l.length / (targetMinutes / sourceMinutes) ∧
    ∀ i, i < (aggregateCandles sourceMinutes targetMinutes l).length →
      ((l.drop (i * (targetMinutes / sourceMinutes))).take
          (targetMinutes / sourceMinutes)).length =
        targetMinutes / sourceMinutes ∧
      ((aggregateCandles sourceMinutes targetMinutes l).getD i default).openTime =
        ((l.drop (i * (targetMinutes / sourceMinutes))).take
          (targetMinutes / sourceMinutes)).headI.openTime ∧
      ((aggregateCandles sourceMinutes targetMinutes l).getD i default).openPrice =
        ((l.drop (i * (targetMinutes / sourceMinutes))).take
          (targetMinutes / sourceMinutes)).headI.openPrice ∧
      ((aggregateCandles sourceMinutes targetMinutes l).getD i default).close =
        (((l.drop (i * (targetMinutes / sourceMinutes))).take
          (targetMinutes / sourceMinutes)).getLastD default).close ∧
      ((aggregateCandles sourceMinutes targetMinutes l).getD i default).high ∈
        ((l.drop (i * (targetMinutes / sourceMinutes))).take
          (targetMinutes / sourceMinutes)).map Candle.high ∧
      (∀ x ∈ (l.drop (i * (targetMinutes / sourceMinutes))).take
          (targetMinutes / sourceMinutes),
        x.high ≤ ((aggregateCandles sourceMinutes targetMinutes l).getD i default).high) ∧
      ((aggregateCandles sourceMinutes targetMinutes l).getD i default).low ∈
        ((l.drop (i * (targetMinutes / sourceMinutes))).take
          (targetMinutes / sourceMinutes)).map Candle.low ∧
      (∀ x ∈ (l.drop (i * (targetMinutes / sourceMinutes))).take
          (targetMinutes / sourceMinutes),
        ((aggregateCandles sourceMinutes targetMinutes l).getD i default).low ≤ x.low) ∧
      ((aggregateCandles sourceMinutes targetMinutes l).getD i default).volume =
        (((l.drop (i * (targetMinutes / sourceMinutes))).take
          (targetMinutes / sourceMinutes)).map Candle.volume).sum := by
  set r := targetMinutes / sourceMinutes with hrdef
  by_cases hr1 : r ≤ 1
  · have hre : r = 1 := by omega
    have hagg : aggregateCandles sourceMinutes targetMinutes l = l := by
      rw [aggregateCandles, if_neg hl, if_pos (by rw [← hrdef, hre])]
    rw [hagg, hre]
    refine ⟨by rw [Nat.div_one], ?_⟩
    intro i hi
    have hchunk : (l.drop (i * 1)).take 1 = [l.get ⟨i, hi⟩] := by
      rw [Nat.mul_one, List.drop_eq_getElem_cons hi]
      rfl
    have hgd : l.getD i default = l.get ⟨i, hi⟩ := by
      rw [List.getD_eq_getElem l default hi]
      rfl
    rw [hchunk, hgd]
    simp
  · have hr2 : 2 ≤ r := by omega
    have hagg : aggregateCandles sourceMinutes targetMinutes l =
        (List.range (l.length / r)).map
          (fun i => mergeChunkL ((l.drop (i * r)).take r)) := by
      rw [aggregateCandles, if_neg hl, if_neg (by omega)]
    rw [hagg]
    have hlen : ((List.range (l.length / r)).map
        (fun i => mergeChunkL ((l.drop (i * r)).take r))).length = l.length / r := by
      rw [List.length_map, List.length_range]
    refine ⟨hlen, ?_⟩
    intro i hi
    rw [hlen] at hi
    have hmul : (i + 1) * r ≤ l.length := by
      rw [← Nat.le_div_iff_mul_le (by omega)]
      omega
    have hchunklen : ((l.drop (i * r)).take r).length = r := by
      rw [List.length_take, List.length_drop]
      have : i * r + r ≤ l.length := by
        calc i * r + r = (i + 1) * r := by ring
        _ ≤ l.length := hmul
      omega
    have hchunkne : (l.drop (i * r)).take r ≠ [] := by
      intro habs
      rw [habs] at hchunklen
      simp at hchunklen
      omega
    have hgd : ((List.range (l.length / r)).map
        (fun i => mergeChunkL ((l.drop (i * r)).take r))).getD i default =
        mergeChunkL ((l.drop (i * r)).take r) := by
      rw [List.getD_eq_getElem _ default (by rw [hlen]; exact hi)]
      rw [List.getElem_map, List.getElem_range]
    rw [hgd]
    obtain ⟨h1, h2, h3, h4, h5, h6, h7, h8⟩ := mergeChunkL_spec _ hchunkne
    exact ⟨hchunklen, h1, h2, h3, h4, h5, h6, h7, h8⟩

/-- Witness for C7: four 1-minute candles aggregated to 3-minute ratio
2 yield 2 candles; facts checked on the first group. -/
theorem C7_candle_aggregation_witness :
    (aggregateCandles 1 2 candlesAgg).length = candlesAgg.length / (2 / 1) ∧
    (((candlesAgg.drop (0 * (2 / 1))).take (2 / 1)).length = 2 / 1 ∧
     ((aggregateCandles 1 2 candlesAgg).getD 0 default).openTime =
       ((candlesAgg.drop (0 * (2 / 1))).take (2 / 1)).headI.openTime ∧
     ((aggregateCandles 1 2 candlesAgg).getD 0 default).openPrice =
       ((candlesAgg.drop (0 * (2 / 1))).take (2 / 1)).headI.openPrice ∧
     ((aggregateCandles 1 2 candlesAgg).getD 0 default).close =
       (((candlesAgg.drop (0 * (2 / 1))).take (2 / 1)).getLastD default).close ∧
     ((aggregateCandles 1 2 candlesAgg).getD 0 default).high ∈
       ((candlesAgg.drop (0 * (2 / 1))).take (2 / 1)).map Candle.high ∧
     (∀ x ∈ (candlesAgg.drop (0 * (2 / 1))).take (2 / 1),
       x.high ≤ ((aggregateCandles 1 2 candlesAgg).getD 0 default).high) ∧
     ((aggregateCandles 1 2 candlesAgg).getD 0 default).low ∈
       ((candlesAgg.drop (0 * (2 / 1))).take (2 / 1)).map Candle.low ∧
     (∀ x ∈ (candlesAgg.drop (0 * (2 / 1))).take (2 / 1),
       ((aggregateCandles 1 2 candlesAgg).getD 0 default).low ≤ x.low) ∧
     ((aggregateCandles 1 2 candlesAgg).getD 0 default).volume =
       (((candlesAgg.drop (0 * (2 / 1))).take (2 / 1)).map Candle.volume).sum) :=
  ⟨(C7_candle_aggregation 1 2 candlesAgg (by norm_num) (by simp [candlesAgg])).1,
   (C7_candle_aggregation 1 2 candlesAgg (by norm_num) (by simp [candlesAgg])).2 0
     (by
       rw [(C7_candle_aggregation 1 2 candlesAgg (by norm_num)
         (by simp [candlesAgg])).1]
       norm_num [candlesAgg])⟩

end TradingBot
